import Mathlib

/-!
# pynqz1fb: frame-buffer driver for the PYNQ-Z1 HDMI output

A shallow embedding of `pynqz1fb.c`.

* `u32` values are natural numbers, reduced modulo `2 ^ 32` wherever the C
  arithmetic can leave the 32-bit range.
* `int` return codes are integers.
* Pointers are `Option Nat`; `none` is `NULL`.
* The platform (device tree, resource mapping, allocator, register reads,
  frame-buffer registration) is an explicit environment `Env`; everything the
  driver does to the outside world is recorded, in order, in a list of `Event`s.
* The constants of `pynqz1fb.h`, which is not part of the source tree, are the
  fields of the structure `Header`, a parameter of every function using them.
-/

namespace Pynqz1fb

/-! ## 32-bit arithmetic -/

/-- Number of values of a `u32`. -/
def U32 : Nat := 2 ^ 32

/-- Truncation of a natural number to a `u32`. -/
def u32 (x : Nat) : Nat := x % U32

/-- Left shift of a `u32`, as in C `a << b`. -/
def shl32 (a b : Nat) : Nat := u32 (a <<< b)

/-- Bitwise complement of a `u32`, as in C `~a`. -/
def not32 (a : Nat) : Nat := (U32 - 1) ^^^ u32 a

/-- Bits `[lo, hi)` of a register value. -/
def bits (r lo hi : Nat) : Nat := (r >>> lo) % 2 ^ (hi - lo)

/-! ## Kernel constants used by the driver -/

/-- Linux `ENOMEM`. -/
def ENOMEM : Int := 12
/-- Linux `ENODEV`. -/
def ENODEV : Int := 19
/-- Linux `EINVAL`. -/
def EINVAL : Int := 22

/-- Linux `PAGE_SIZE` of the platform (4 KiB pages). -/
def PAGE_SIZE : Nat := 4096

/-- Linux `PAGE_ALIGN` on a `u32` operand: `(x + (PAGE_SIZE - 1)) & ~(PAGE_SIZE - 1)`. -/
def PAGE_ALIGN (x : Nat) : Nat := u32 (x + (PAGE_SIZE - 1)) &&& not32 (PAGE_SIZE - 1)

/-! ## Constants of the driver -/

def BIT_DISPLAY_START : Nat := 0
def BIT_CLOCK_RUNNING : Nat := 0
def BYTES_PER_PIXEL : Nat := 3
def BITS_PER_PIXEL : Nat := BYTES_PER_PIXEL * 8
def RED_SHIFT : Nat := 16
def GREEN_SHIFT : Nat := 8
def BLUE_SHIFT : Nat := 0
def FB_NUMBER_OF_FRAMES : Nat := 1
def PALETTE_ENTRIES_NO : Nat := 16
def NUMBER_OF_MEM_RESOURCES : Nat := 3
def PYNQZ1_FB_FLAGS_REGISTERED : Nat := 1 <<< 0

/-! ## Mode table -/

/-- The C `struct dynclk_param`. -/
structure dynclk_param where
  prescaler : Nat
  multiplier : Nat
  postscaler : Nat
  reserved : Nat
  deriving DecidableEq, Repr

/-- The C `struct pynqz1_fb_screen_param`. -/
structure pynqz1_fb_screen_param where
  width : Nat
  height : Nat
  hFrameSize : Nat
  hSyncStart : Nat
  hSyncEnd : Nat
  vFrameSize : Nat
  vSyncStart : Nat
  vSyncEnd : Nat
  dynclk : dynclk_param
  deriving DecidableEq, Repr

/-- The all-zero record `{ 0 }` that terminates the table. -/
def sentinel_param : pynqz1_fb_screen_param :=
  ⟨0, 0, 0, 0, 0, 0, 0, 0, ⟨0, 0, 0, 0⟩⟩

/-- The C array `pynqz1_fb_screen_params`. -/
def pynqz1_fb_screen_params : List pynqz1_fb_screen_param :=
  [ ⟨640,  480,  800,  656,  752,  525,  489,  491,  ⟨1, 10, 8, 0⟩⟩,
    ⟨800,  480,  1056, 840,  968,  525,  489,  491,  ⟨1, 10, 6, 0⟩⟩,
    ⟨800,  600,  1056, 840,  968,  628,  600,  604,  ⟨1, 8,  4, 0⟩⟩,
    ⟨1280, 720,  1650, 1390, 1430, 750,  724,  729,  ⟨4, 30, 1, 0⟩⟩,
    ⟨1280, 1024, 1688, 1328, 1440, 1066, 1024, 1027, ⟨8, 86, 2, 0⟩⟩,
    ⟨1920, 1080, 2200, 2008, 2052, 1125, 1083, 1088, ⟨12, 89, 1, 0⟩⟩,
    sentinel_param ]

/-- Read of `pynqz1_fb_screen_params[i]`. -/
def screen_param_at (i : Nat) : pynqz1_fb_screen_param :=
  pynqz1_fb_screen_params.getD i sentinel_param

/-- The scan loop of `pynqz1_fb_parse_dt`:
`for(; screen_param->width != 0; ++screen_param) if (match) break;`
run over the records from position `i` on; the result is the position at which
the loop stops. -/
def scan_screen_params (width height : Nat) : List pynqz1_fb_screen_param → Nat → Nat
  | [], i => i
  | p :: rest, i =>
    if p.width != 0 then
      if p.width == width && p.height == height then i
      else scan_screen_params width height rest (i + 1)
    else i

/-! ## Clock parameter calculator -/

/-- The C array `lock_lookup`. -/
def lock_lookup : List Nat :=
  [ 0b0011000110111110100011111010010000000001,
    0b0011000110111110100011111010010000000001,
    0b0100001000111110100011111010010000000001,
    0b0101101011111110100011111010010000000001,
    0b0111001110111110100011111010010000000001,
    0b1000110001111110100011111010010000000001,
    0b1001110011111110100011111010010000000001,
    0b1011010110111110100011111010010000000001,
    0b1100111001111110100011111010010000000001,
    0b1110011100111110100011111010010000000001,
    0b1111111111111000010011111010010000000001,
    0b1111111111110011100111111010010000000001,
    0b1111111111101110111011111010010000000001,
    0b1111111111101011110011111010010000000001,
    0b1111111111101000101011111010010000000001,
    0b1111111111100111000111111010010000000001,
    0b1111111111100011111111111010010000000001,
    0b1111111111100010011011111010010000000001,
    0b1111111111100000110111111010010000000001,
    0b1111111111011111010011111010010000000001,
    0b1111111111011101101111111010010000000001,
    0b1111111111011100001011111010010000000001,
    0b1111111111011010100111111010010000000001,
    0b1111111111011001000011111010010000000001,
    0b1111111111011001000011111010010000000001,
    0b1111111111010111011111111010010000000001,
    0b1111111111010101111011111010010000000001,
    0b1111111111010101111011111010010000000001,
    0b1111111111010100010111111010010000000001,
    0b1111111111010100010111111010010000000001,
    0b1111111111010010110011111010010000000001,
    0b1111111111010010110011111010010000000001,
    0b1111111111010010110011111010010000000001,
    0b1111111111010001001111111010010000000001,
    0b1111111111010001001111111010010000000001,
    0b1111111111010001001111111010010000000001,
    0b1111111111001111101011111010010000000001,
    0b1111111111001111101011111010010000000001,
    0b1111111111001111101011111010010000000001,
    0b1111111111001111101011111010010000000001,
    0b1111111111001111101011111010010000000001,
    0b1111111111001111101011111010010000000001,
    0b1111111111001111101011111010010000000001,
    0b1111111111001111101011111010010000000001,
    0b1111111111001111101011111010010000000001,
    0b1111111111001111101011111010010000000001,
    0b1111111111001111101011111010010000000001,
    0b1111111111001111101011111010010000000001,
    0b1111111111001111101011111010010000000001,
    0b1111111111001111101011111010010000000001,
    0b1111111111001111101011111010010000000001,
    0b1111111111001111101011111010010000000001,
    0b1111111111001111101011111010010000000001,
    0b1111111111001111101011111010010000000001,
    0b1111111111001111101011111010010000000001,
    0b1111111111001111101011111010010000000001,
    0b1111111111001111101011111010010000000001,
    0b1111111111001111101011111010010000000001,
    0b1111111111001111101011111010010000000001,
    0b1111111111001111101011111010010000000001,
    0b1111111111001111101011111010010000000001,
    0b1111111111001111101011111010010000000001,
    0b1111111111001111101011111010010000000001,
    0b1111111111001111101011111010010000000001 ]

/-- The C array `filter_lookup_low`. -/
def filter_lookup_low : List Nat :=
  [ 0b0001011111,
    0b0001010111,
    0b0001111011,
    0b0001011011,
    0b0001101011,
    0b0001110011,
    0b0001110011,
    0b0001110011,
    0b0001110011,
    0b0001001011,
    0b0001001011,
    0b0001001011,
    0b0010110011,
    0b0001010011,
    0b0001010011,
    0b0001010011,
    0b0001010011,
    0b0001010011,
    0b0001010011,
    0b0001010011,
    0b0001010011,
    0b0001010011,
    0b0001010011,
    0b0001100011,
    0b0001100011,
    0b0001100011,
    0b0001100011,
    0b0001100011,
    0b0001100011,
    0b0001100011,
    0b0001100011,
    0b0001100011,
    0b0001100011,
    0b0001100011,
    0b0001100011,
    0b0001100011,
    0b0001100011,
    0b0010010011,
    0b0010010011,
    0b0010010011,
    0b0010010011,
    0b0010010011,
    0b0010010011,
    0b0010010011,
    0b0010010011,
    0b0010010011,
    0b0010010011,
    0b0010100011,
    0b0010100011,
    0b0010100011,
    0b0010100011,
    0b0010100011,
    0b0010100011,
    0b0010100011,
    0b0010100011,
    0b0010100011,
    0b0010100011,
    0b0010100011,
    0b0010100011,
    0b0010100011,
    0b0010100011,
    0b0010100011,
    0b0010100011,
    0b0010100011 ]

/-- The C function `dynclk_calculate_divider`; `CLK_BIT_WEDGE` is the constant
of that name in `pynqz1fb.h`. -/
def dynclk_calculate_divider (CLK_BIT_WEDGE : Nat) (divisor : Nat) : Nat :=
  let clock_on := divisor / 2
  let clock_off := divisor - clock_on
  let reg_value := 0
  if divisor == 1 then
    0x1041
  else
    let wedge := divisor &&& 1 != 0
    let reg_value := if wedge then shl32 1 CLK_BIT_WEDGE else reg_value
    let clock_off := if wedge then u32 (clock_off + 1) else clock_off
    let reg_value := reg_value ||| shl32 (clock_off &&& 0x3f) 0
    let reg_value := reg_value ||| shl32 (clock_on &&& 0x3f) 6
    reg_value

/-- The C function `dynclk_calculate_divider_config`. -/
def dynclk_calculate_divider_config (CLK_BIT_WEDGE : Nat) (divisor : Nat) : Nat :=
  let divider := dynclk_calculate_divider CLK_BIT_WEDGE divisor
  (divider &&& 0xfff) ||| shl32 (divider &&& 0x3000) 10

/-! ## Constants of `pynqz1fb.h` -/

/-- The constants that `pynqz1fb.c` takes from `pynqz1fb.h`: register offsets,
bit positions and masks of the clock generator, the video timing controller and
the video DMA engine. The header is not part of the source tree, so its
constants are parameters of the model. -/
structure Header where
  CLK_BIT_WEDGE : Nat
  OFST_DISPLAY_CTRL : Nat
  OFST_DISPLAY_STATUS : Nat
  OFST_DISPLAY_CLK_L : Nat
  OFST_DISPLAY_FB_L : Nat
  OFST_DISPLAY_FB_H_CLK_H : Nat
  OFST_DISPLAY_DIV : Nat
  OFST_DISPLAY_LOCK_L : Nat
  OFST_DISPLAY_FLTR_LOCK_H : Nat
  VTC_REG_CTL : Nat
  VTC_REG_GPOL : Nat
  VTC_REG_GASIZE : Nat
  VTC_REG_GHSIZE : Nat
  VTC_REG_GVSIZE : Nat
  VTC_REG_GHSYNC : Nat
  VTC_REG_GVBHOFF : Nat
  VTC_REG_GVSYNC : Nat
  VTC_REG_GVSHOFF : Nat
  VTC_REG_GVBHOFF_F1 : Nat
  VTC_REG_GVSYNC_F1 : Nat
  VTC_REG_GVSHOFF_F1 : Nat
  VTC_REG_GFENC : Nat
  VTC_CTL_RESET_MASK : Nat
  VTC_CTL_SW_MASK : Nat
  VTC_CTL_GE_MASK : Nat
  VTC_CTL_DE_MASK : Nat
  VTC_CTL_RU_MASK : Nat
  VTC_CTL_ALLSS_MASK : Nat
  VTC_CTL_ACPSS_MASK : Nat
  VTC_CTL_AVPSS_MASK : Nat
  VTC_CTL_HSPSS_MASK : Nat
  VTC_CTL_VSPSS_MASK : Nat
  VTC_CTL_HBPSS_MASK : Nat
  VTC_CTL_VBPSS_MASK : Nat
  VTC_CTL_VCSS_MASK : Nat
  VTC_CTL_VASS_MASK : Nat
  VTC_CTL_VBSS_MASK : Nat
  VTC_CTL_VSSS_MASK : Nat
  VTC_CTL_VFSS_MASK : Nat
  VTC_CTL_VTSS_MASK : Nat
  VTC_CTL_HBSS_MASK : Nat
  VTC_CTL_HSSS_MASK : Nat
  VTC_CTL_HFSS_MASK : Nat
  VTC_CTL_HTSS_MASK : Nat
  VTC_POL_ALLP_MASK : Nat
  VTC_ASIZE_VERT_SHIFT : Nat
  VTC_VSIZE_F1_SHIFT : Nat
  VTC_SB_END_SHIFT : Nat
  VTC_ENC_CPARITY_MASK : Nat
  VTC_ENC_PROG_MASK : Nat
  VDMA_REG_TX : Nat
  VDMA_REG_RX : Nat
  VDMA_REG_CR : Nat
  VDMA_REG_MM2S_ADDR : Nat
  VDMA_REG_HSIZE : Nat
  VDMA_REG_STRD_FRMDLY : Nat
  VDMA_REG_START_ADDR : Nat
  VDMA_REG_VSIZE : Nat
  VDMA_REG_PARKPTR : Nat
  VDMA_START_ADDR_LEN : Nat
  VDMA_FRMDLY_SHIFT : Nat
  VDMA_CR_RESET_MASK : Nat
  VDMA_CR_RUNSTOP_MASK : Nat
  VDMA_CR_TAIL_EN_MASK : Nat
  VDMA_PARKPTR_READREF_MASK : Nat

/-! ## Device state -/

/-- The C `struct pynqz1_frame`. -/
structure pynqz1_frame where
  phys : Nat
  virt : Option Nat
  deriving DecidableEq, Repr

/-- The C `struct fb_bitfield`: offset, length, msb_right. -/
structure fb_bitfield where
  offset : Nat
  length : Nat
  msb_right : Nat
  deriving DecidableEq, Repr

/-- The fields of the kernel's `struct fb_fix_screeninfo` that the driver sets
(the identification string apart). -/
structure fb_fix_screeninfo where
  type : Nat
  visual : Nat
  accel : Nat
  smem_start : Nat
  smem_len : Nat
  line_length : Nat
  deriving DecidableEq, Repr

/-- The fields of the kernel's `struct fb_var_screeninfo` that the driver sets. -/
structure fb_var_screeninfo where
  bits_per_pixel : Nat
  red : fb_bitfield
  green : fb_bitfield
  blue : fb_bitfield
  transp : fb_bitfield
  activate : Nat
  vmode : Nat
  xres : Nat
  yres : Nat
  xres_virtual : Nat
  yres_virtual : Nat
  width : Nat
  height : Nat
  deriving DecidableEq, Repr

/-- The fields of the kernel's `struct fb_info` that the driver sets. The
pointers `device`, `pseudo_palette` and `fbops` only ever point at the owning
device's own members, so they are recorded as "set" flags. -/
structure fb_info where
  device : Bool
  pseudo_palette : Bool
  screen_base : Option Nat
  fbops : Bool
  fix : fb_fix_screeninfo
  var : fb_var_screeninfo
  deriving DecidableEq, Repr

/-- The C `struct pynqz1_fb_device`. `screen_param` points into
`pynqz1_fb_screen_params` and is the position of the record it points at. -/
structure pynqz1_fb_device where
  info : fb_info
  reg_dynclk : Option Nat
  reg_vtc : Option Nat
  reg_vdma : Option Nat
  frame : List pynqz1_frame
  pseudo_palette : List Nat
  width : Nat
  height : Nat
  stride : Nat
  debug : Nat
  flags : Nat
  screen_param : Option Nat
  deriving DecidableEq, Repr

/-- The static initialiser `pynqz1_fb_fix`
(`FB_TYPE_PACKED_PIXELS = 0`, `FB_VISUAL_TRUECOLOR = 2`, `FB_ACCEL_NONE = 0`). -/
def pynqz1_fb_fix : fb_fix_screeninfo :=
  { type := 0, visual := 2, accel := 0, smem_start := 0, smem_len := 0, line_length := 0 }

/-- The static initialiser `pynqz1_fb_var`
(`FB_ACTIVATE_NOW = 0`, `FB_VMODE_NONINTERLACED = 0`; the constant expressions
`(u32)(1280*2.54/72)` and `(u32)(720*2.54/72)` are 45 and 25). -/
def pynqz1_fb_var : fb_var_screeninfo :=
  { bits_per_pixel := BITS_PER_PIXEL,
    red := ⟨RED_SHIFT, 8, 0⟩, green := ⟨GREEN_SHIFT, 8, 0⟩, blue := ⟨BLUE_SHIFT, 8, 0⟩,
    transp := ⟨0, 0, 0⟩,
    activate := 0, vmode := 0,
    xres := 1280, yres := 1024, xres_virtual := 1280, yres_virtual := 1024,
    width := 45, height := 25 }

/-- The device structure after `devm_kzalloc` and `memset(fbdev, 0, sizeof(*fbdev))`. -/
def zeroed_device : pynqz1_fb_device :=
  { info := { device := false, pseudo_palette := false, screen_base := none, fbops := false,
              fix := ⟨0, 0, 0, 0, 0, 0⟩,
              var := ⟨0, ⟨0, 0, 0⟩, ⟨0, 0, 0⟩, ⟨0, 0, 0⟩, ⟨0, 0, 0⟩, 0, 0, 0, 0, 0, 0, 0, 0⟩ },
    reg_dynclk := none, reg_vtc := none, reg_vdma := none,
    frame := List.replicate FB_NUMBER_OF_FRAMES ⟨0, none⟩,
    pseudo_palette := List.replicate PALETTE_ENTRIES_NO 0,
    width := 0, height := 0, stride := 0, debug := 0, flags := 0,
    screen_param := none }

/-! ## Observable events -/

/-- The three register blocks of the device. -/
inductive Port where
  | dynclk
  | vtc
  | vdma
  deriving DecidableEq, Repr

/-- The diagnostics the driver prints. -/
inductive Msg where
  | probing
  | cant_parse_width
  | cant_parse_height
  | not_supported (width height : Nat)
  | fall_back (width height : Nat)
  | select_resolution (width height : Nat)
  | no_memory_resource
  | failed_to_map
  | mapped (port : Port) (reg : Nat)
  | failed_to_allocate
  | failed_to_stop_clock
  | failed_to_start_clock
  | dynclk_clk_l (v : Nat)
  | dynclk_fb_l (v : Nat)
  | dynclk_div (v : Nat)
  | dynclk_lock_l (v : Nat)
  | dynclk_filter_lock_h (v : Nat)
  | dynclk_configured
  | vtc_configured
  | vdma_configured
  | could_not_register
  | probed
  deriving DecidableEq, Repr

/-- What the driver does to its environment, in program order. -/
inductive Event where
  | dev_info (m : Msg)
  | dev_err (m : Msg)
  | ioread32 (port : Port) (offset : Nat)
  | iowrite32 (port : Port) (offset : Nat) (value : Nat)
  | mdelay (ms : Nat)
  | devm_release_resource (reg : Nat)
  | dma_alloc_coherent (size : Nat)
  | memset_io (virt : Nat) (size : Nat)
  | dma_free_coherent (size : Nat) (virt : Nat) (phys : Nat)
  | register_framebuffer
  | unregister_framebuffer
  deriving DecidableEq, Repr

/-- Result of `of_property_read_u32`: the return code, and the value stored
through the out pointer when the code is zero. -/
structure PropertyRead where
  ret : Int
  value : Nat

/-- The platform and the hardware as the driver sees them during one probe. -/
structure Env where
  /-- whether `devm_kzalloc` returns memory -/
  devm_kzalloc : Bool
  of_width : PropertyRead
  of_height : PropertyRead
  of_debug : PropertyRead
  /-- result of `platform_get_resource(pdev, IORESOURCE_MEM, regIndex)`; `none` is `NULL` -/
  platform_get_resource : Nat → Option Nat
  /-- result of `devm_ioremap_resource`: the mapped address, or the error of an `ERR_PTR` -/
  devm_ioremap_resource : Nat → Except Int Nat
  /-- result of `dma_alloc_coherent` for frame `i`: `(virt, phys)`; `none` is `NULL` -/
  dma_alloc_coherent : Nat → Option (Nat × Nat)
  /-- the clock status register, read after the stop command -/
  status_after_stop : Nat
  /-- the clock status register, read after the start command -/
  status_after_start : Nat
  /-- first read of the timing controller's control register -/
  vtc_ctl_first : Nat
  /-- second read of the timing controller's control register -/
  vtc_ctl_second : Nat
  vtc_gfenc : Nat
  /-- first read of the DMA transmit channel's control register -/
  vdma_tx_cr_first : Nat
  vdma_parkptr : Nat
  /-- second read of the DMA transmit channel's control register -/
  vdma_tx_cr_second : Nat
  /-- return code of `register_framebuffer` -/
  register_framebuffer : Int

/-- What a call leaves behind: the return code, the device structure
(`none` when it was never allocated) and the events, in order. -/
structure Outcome where
  rc : Int
  fbdev : Option pynqz1_fb_device
  trace : List Event

/-! ## Register access -/

/-- The accessor `dynclk_write_reg`. -/
def dynclk_write_reg (offset value : Nat) : Event := .iowrite32 .dynclk offset value
/-- The accessor `dynclk_read_reg`: the access itself; the value read comes from the environment. -/
def dynclk_read_reg (offset : Nat) : Event := .ioread32 .dynclk offset
/-- The accessor `vtc_write_reg`. -/
def vtc_write_reg (offset value : Nat) : Event := .iowrite32 .vtc offset value
/-- The accessor `vtc_read_reg`. -/
def vtc_read_reg (offset : Nat) : Event := .ioread32 .vtc offset
/-- The accessor `vdma_write_reg`. -/
def vdma_write_reg (offset value : Nat) : Event := .iowrite32 .vdma offset value
/-- The accessor `vdma_read_reg`. -/
def vdma_read_reg (offset : Nat) : Event := .ioread32 .vdma offset
/-- The accessor `vdma_tx_write_reg`: the offset is relative to `VDMA_REG_TX`. -/
def vdma_tx_write_reg (hdr : Header) (offset value : Nat) : Event :=
  .iowrite32 .vdma (offset + hdr.VDMA_REG_TX) value
/-- The accessor `vdma_tx_read_reg`. -/
def vdma_tx_read_reg (hdr : Header) (offset : Nat) : Event :=
  .ioread32 .vdma (offset + hdr.VDMA_REG_TX)
/-- The accessor `vdma_rx_write_reg`: the offset is relative to `VDMA_REG_RX`. -/
def vdma_rx_write_reg (hdr : Header) (offset value : Nat) : Event :=
  .iowrite32 .vdma (offset + hdr.VDMA_REG_RX) value

/-! ## Palette -/

/-- The C function `pynqz1_fb_setcolreg`, acting on the pseudo palette that
`info->pseudo_palette` points at: the return code and the palette afterwards. -/
def pynqz1_fb_setcolreg (regno red green blue _transp : Nat) (palette : List Nat) :
    Int × List Nat :=
  if regno ≥ PALETTE_ENTRIES_NO then
    (-EINVAL, palette)
  else
    let red := red >>> 8
    let green := green >>> 8
    let blue := blue >>> 8
    (0, palette.set regno (shl32 red RED_SHIFT ||| shl32 green GREEN_SHIFT ||| shl32 blue BLUE_SHIFT))

/-! ## Device-tree parsing -/

/-- The end of `pynqz1_fb_parse_dt`, common to both branches of the lookup:
`fbdev->screen_param = screen_param;`, the read of the `debug` property (whose
return code is ignored) and `return 0;`. -/
def parse_dt_finish (env : Env) (fbdev : pynqz1_fb_device) (screen_param : Nat)
    (trace : List Event) : Outcome :=
  let fbdev := { fbdev with screen_param := some screen_param }
  let fbdev :=
    if env.of_debug.ret ≠ 0 then fbdev else { fbdev with debug := u32 env.of_debug.value }
  ⟨0, some fbdev, trace⟩

/-- The C function `pynqz1_fb_parse_dt`. -/
def pynqz1_fb_parse_dt (env : Env) (fbdev : pynqz1_fb_device) : Outcome :=
  if env.of_width.ret ≠ 0 then
    ⟨env.of_width.ret, some fbdev, [.dev_err .cant_parse_width]⟩
  else
    let fbdev := { fbdev with width := u32 env.of_width.value }
    if env.of_height.ret ≠ 0 then
      ⟨env.of_height.ret, some fbdev, [.dev_err .cant_parse_height]⟩
    else
      let fbdev := { fbdev with height := u32 env.of_height.value }
      let screen_param := scan_screen_params fbdev.width fbdev.height pynqz1_fb_screen_params 0
      if (screen_param_at screen_param).width == 0 then
        let screen_param := 0
        let t_not_supported : List Event :=
          [.dev_info (.not_supported fbdev.width fbdev.height)]
        let fbdev := { fbdev with width := (screen_param_at screen_param).width }
        let fbdev := { fbdev with height := (screen_param_at screen_param).height }
        let t_fall_back : List Event := [.dev_info (.fall_back fbdev.width fbdev.height)]
        parse_dt_finish env fbdev screen_param (t_not_supported ++ t_fall_back)
      else
        parse_dt_finish env fbdev screen_param
          [.dev_info (.select_resolution fbdev.width fbdev.height)]

/-! ## Release -/

/-- The C macro `GET_FB_SIZE`: `PAGE_ALIGN(width * height * BYTES_PER_PIXEL)` on `u32`. -/
def GET_FB_SIZE (fbdev : pynqz1_fb_device) : Nat :=
  PAGE_ALIGN (u32 (u32 (fbdev.width * fbdev.height) * BYTES_PER_PIXEL))

/-- The C macro `RELEASE_REG_RESOURCE`, on the value of one `reg_` member:
the member afterwards and the events. -/
def RELEASE_REG_RESOURCE (reg : Option Nat) : Option Nat × List Event :=
  match reg with
  | some r => (none, [.devm_release_resource r])
  | none => (none, [])

/-- The loop of `pynqz1_fb_release` over `fbdev->frame[i]`, for a buffer size
`size`: the frames afterwards and the events. -/
def release_frames (size : Nat) : List pynqz1_frame → List pynqz1_frame × List Event
  | [] => ([], [])
  | f :: rest =>
    let r := release_frames size rest
    match f.virt with
    | some v => ({ f with virt := none } :: r.1, .dma_free_coherent size v f.phys :: r.2)
    | none => (f :: r.1, r.2)

/-- The C function `pynqz1_fb_release`: the device afterwards and the events. -/
def pynqz1_fb_release (hdr : Header) (fbdev : Option pynqz1_fb_device) :
    Option pynqz1_fb_device × List Event :=
  match fbdev with
  | none => (none, [])
  | some fbdev =>
    let registered := fbdev.flags &&& PYNQZ1_FB_FLAGS_REGISTERED != 0
    let t_unregister : List Event := if registered then [.unregister_framebuffer] else []
    let fbdev :=
      if registered then { fbdev with flags := fbdev.flags &&& not32 PYNQZ1_FB_FLAGS_REGISTERED }
      else fbdev
    let t_vdma : List Event :=
      if fbdev.reg_vdma ≠ none then
        [vdma_rx_write_reg hdr hdr.VDMA_REG_CR hdr.VDMA_CR_RESET_MASK,
         vdma_tx_write_reg hdr hdr.VDMA_REG_CR hdr.VDMA_CR_RESET_MASK]
      else []
    let t_vtc : List Event :=
      if fbdev.reg_vtc ≠ none then [vtc_write_reg hdr.VTC_REG_CTL hdr.VTC_CTL_RESET_MASK] else []
    let t_dynclk : List Event :=
      if fbdev.reg_dynclk ≠ none then [dynclk_write_reg hdr.OFST_DISPLAY_CLK_L 0] else []
    let r_dynclk := RELEASE_REG_RESOURCE fbdev.reg_dynclk
    let fbdev := { fbdev with reg_dynclk := r_dynclk.1 }
    let r_vtc := RELEASE_REG_RESOURCE fbdev.reg_vtc
    let fbdev := { fbdev with reg_vtc := r_vtc.1 }
    let r_vdma := RELEASE_REG_RESOURCE fbdev.reg_vdma
    let fbdev := { fbdev with reg_vdma := r_vdma.1 }
    let r_frames := release_frames (GET_FB_SIZE fbdev) fbdev.frame
    let fbdev := { fbdev with frame := r_frames.1 }
    (some fbdev,
      t_unregister ++ t_vdma ++ t_vtc ++ t_dynclk ++ r_dynclk.2 ++ r_vtc.2 ++ r_vdma.2 ++ r_frames.2)

/-- The C macro `RELEASE_AND_RETURN(rc)`, after the events `trace`. -/
def RELEASE_AND_RETURN (hdr : Header) (rc : Int) (fbdev : pynqz1_fb_device)
    (trace : List Event) : Outcome :=
  let r := pynqz1_fb_release hdr (some fbdev)
  ⟨rc, r.1, trace ++ r.2⟩

/-! ## Probe -/

/-- Last part of `pynqz1_fb_probe`: `register_framebuffer` and the registered flag. -/
def probe_register (hdr : Header) (env : Env) (fbdev : pynqz1_fb_device)
    (trace : List Event) : Outcome :=
  let rc := env.register_framebuffer
  let trace := trace ++ [.register_framebuffer]
  if rc ≠ 0 then
    RELEASE_AND_RETURN hdr 1 fbdev (trace ++ [.dev_err .could_not_register])
  else
    let fbdev := { fbdev with flags := fbdev.flags ||| PYNQZ1_FB_FLAGS_REGISTERED }
    ⟨0, some fbdev, trace ++ [.dev_info .probed]⟩

/-- The register accesses of the block `Initialize VDMA` of `pynqz1_fb_probe`, in order. -/
def vdma_sequence (hdr : Header) (env : Env) (fbdev : pynqz1_fb_device) : List Event :=
  let cr := 0
  let t_reset : List Event :=
    [vdma_rx_write_reg hdr hdr.VDMA_REG_CR hdr.VDMA_CR_RESET_MASK,
     vdma_tx_write_reg hdr hdr.VDMA_REG_CR hdr.VDMA_CR_RESET_MASK,
     vdma_tx_write_reg hdr hdr.VDMA_REG_CR cr,
     vdma_write_reg (hdr.VDMA_REG_MM2S_ADDR + hdr.VDMA_REG_HSIZE)
       (u32 (fbdev.width * BYTES_PER_PIXEL)),
     vdma_write_reg (hdr.VDMA_REG_MM2S_ADDR + hdr.VDMA_REG_STRD_FRMDLY)
       (fbdev.stride ||| shl32 0 hdr.VDMA_FRMDLY_SHIFT)]
  let t_addr : List Event :=
    (List.range FB_NUMBER_OF_FRAMES).map fun i =>
      let reg := hdr.VDMA_REG_MM2S_ADDR + hdr.VDMA_REG_START_ADDR + i * hdr.VDMA_START_ADDR_LEN
      vdma_write_reg reg ((fbdev.frame.getD i ⟨0, none⟩).phys)
  let cr := u32 env.vdma_tx_cr_first
  let cr := cr ||| hdr.VDMA_CR_RUNSTOP_MASK
  let t_start : List Event :=
    [vdma_tx_read_reg hdr hdr.VDMA_REG_CR,
     vdma_tx_write_reg hdr hdr.VDMA_REG_CR cr,
     vdma_write_reg (hdr.VDMA_REG_MM2S_ADDR + hdr.VDMA_REG_VSIZE) fbdev.height]
  let parkPtr := u32 env.vdma_parkptr
  let parkPtr := parkPtr &&& not32 hdr.VDMA_PARKPTR_READREF_MASK
  let cr := u32 env.vdma_tx_cr_second &&& not32 hdr.VDMA_CR_TAIL_EN_MASK
  let t_park : List Event :=
    [vdma_read_reg hdr.VDMA_REG_PARKPTR,
     vdma_write_reg hdr.VDMA_REG_PARKPTR parkPtr,
     vdma_tx_read_reg hdr hdr.VDMA_REG_CR,
     vdma_tx_write_reg hdr hdr.VDMA_REG_CR cr]
  t_reset ++ t_addr ++ t_start ++ t_park

/-- Part of `pynqz1_fb_probe`: the block `Initialize VDMA`, then registration. -/
def probe_vdma (hdr : Header) (env : Env) (fbdev : pynqz1_fb_device)
    (trace : List Event) : Outcome :=
  probe_register hdr env fbdev
    (trace ++ vdma_sequence hdr env fbdev ++ [.dev_info .vdma_configured])

/-- The value written to the timing controller's control register: the value
read back, with the enables cleared and every source-select bit, the generator
enable and the register-update bit set. -/
def vtc_ctrl (hdr : Header) (read : Nat) : Nat :=
  let ctrl := read
  let ctrl := ctrl &&& not32 (hdr.VTC_CTL_SW_MASK ||| hdr.VTC_CTL_GE_MASK ||| hdr.VTC_CTL_DE_MASK)
  let ctrl := ctrl &&& not32 hdr.VTC_CTL_ALLSS_MASK
  let ctrl := ctrl ||| hdr.VTC_CTL_ACPSS_MASK
  let ctrl := ctrl ||| hdr.VTC_CTL_AVPSS_MASK
  let ctrl := ctrl ||| hdr.VTC_CTL_HSPSS_MASK
  let ctrl := ctrl ||| hdr.VTC_CTL_VSPSS_MASK
  let ctrl := ctrl ||| hdr.VTC_CTL_HBPSS_MASK
  let ctrl := ctrl ||| hdr.VTC_CTL_VBPSS_MASK
  let ctrl := ctrl ||| hdr.VTC_CTL_VCSS_MASK
  let ctrl := ctrl ||| hdr.VTC_CTL_VASS_MASK
  let ctrl := ctrl ||| hdr.VTC_CTL_VBSS_MASK
  let ctrl := ctrl ||| hdr.VTC_CTL_VSSS_MASK
  let ctrl := ctrl ||| hdr.VTC_CTL_VFSS_MASK
  let ctrl := ctrl ||| hdr.VTC_CTL_VTSS_MASK
  let ctrl := ctrl ||| hdr.VTC_CTL_HBSS_MASK
  let ctrl := ctrl ||| hdr.VTC_CTL_HSSS_MASK
  let ctrl := ctrl ||| hdr.VTC_CTL_HFSS_MASK
  let ctrl := ctrl ||| hdr.VTC_CTL_HTSS_MASK
  let ctrl := ctrl ||| hdr.VTC_CTL_GE_MASK
  let ctrl := ctrl ||| hdr.VTC_CTL_RU_MASK
  ctrl

/-- The register accesses of the block `Initialize Video Timing Controller` of
`pynqz1_fb_probe`, in order. -/
def vtc_sequence (hdr : Header) (env : Env) (fbdev : pynqz1_fb_device) : List Event :=
  let screen := screen_param_at (fbdev.screen_param.getD 0)
  let ctrl := vtc_ctrl hdr (u32 env.vtc_ctl_first)
  let status := u32 env.vtc_ctl_second
  let gfenc := u32 env.vtc_gfenc
  let gfenc := gfenc &&& not32 hdr.VTC_ENC_CPARITY_MASK
  let gfenc := gfenc &&& not32 hdr.VTC_ENC_PROG_MASK
  let gfenc := gfenc ||| 2
  [vtc_write_reg hdr.VTC_REG_CTL hdr.VTC_CTL_RESET_MASK,
   vtc_read_reg hdr.VTC_REG_CTL,
   vtc_write_reg hdr.VTC_REG_CTL ctrl,
   vtc_read_reg hdr.VTC_REG_CTL,
   vtc_write_reg hdr.VTC_REG_CTL (status ||| hdr.VTC_CTL_RU_MASK),
   vtc_write_reg hdr.VTC_REG_GPOL hdr.VTC_POL_ALLP_MASK,
   vtc_write_reg hdr.VTC_REG_GASIZE
     (fbdev.width ||| shl32 fbdev.height hdr.VTC_ASIZE_VERT_SHIFT),
   vtc_write_reg hdr.VTC_REG_GHSIZE screen.hFrameSize,
   vtc_write_reg hdr.VTC_REG_GVSIZE
     (screen.vFrameSize ||| shl32 screen.vFrameSize hdr.VTC_VSIZE_F1_SHIFT),
   vtc_write_reg hdr.VTC_REG_GHSYNC
     (screen.hSyncStart ||| shl32 screen.hSyncEnd hdr.VTC_SB_END_SHIFT),
   vtc_write_reg hdr.VTC_REG_GVBHOFF
     (screen.width ||| shl32 screen.width hdr.VTC_SB_END_SHIFT),
   vtc_write_reg hdr.VTC_REG_GVSYNC
     (screen.vSyncStart ||| shl32 screen.vSyncEnd hdr.VTC_SB_END_SHIFT),
   vtc_write_reg hdr.VTC_REG_GVSHOFF
     (screen.hSyncStart ||| shl32 screen.hSyncStart hdr.VTC_SB_END_SHIFT),
   vtc_write_reg hdr.VTC_REG_GVBHOFF_F1
     (screen.width ||| shl32 screen.width hdr.VTC_SB_END_SHIFT),
   vtc_write_reg hdr.VTC_REG_GVSYNC_F1
     (screen.vSyncStart ||| shl32 screen.vSyncEnd hdr.VTC_SB_END_SHIFT),
   vtc_write_reg hdr.VTC_REG_GVSHOFF_F1
     (screen.hSyncStart ||| shl32 screen.hSyncStart hdr.VTC_SB_END_SHIFT),
   vtc_read_reg hdr.VTC_REG_GFENC,
   vtc_write_reg hdr.VTC_REG_GFENC gfenc]

/-- Part of `pynqz1_fb_probe`: the block `Initialize Video Timing Controller`,
then the rest of the probe. -/
def probe_vtc (hdr : Header) (env : Env) (fbdev : pynqz1_fb_device)
    (trace : List Event) : Outcome :=
  probe_vdma hdr env fbdev (trace ++ vtc_sequence hdr env fbdev ++ [.dev_info .vtc_configured])

/-- The local `clk_l` of `pynqz1_fb_probe`. -/
def probe_clk_l (hdr : Header) (screen : pynqz1_fb_screen_param) : Nat :=
  dynclk_calculate_divider_config hdr.CLK_BIT_WEDGE screen.dynclk.prescaler

/-- The local `fb_l` of `pynqz1_fb_probe`. -/
def probe_fb_l (hdr : Header) (screen : pynqz1_fb_screen_param) : Nat :=
  dynclk_calculate_divider_config hdr.CLK_BIT_WEDGE screen.dynclk.multiplier

/-- The local `div_` of `pynqz1_fb_probe`. -/
def probe_div (hdr : Header) (screen : pynqz1_fb_screen_param) : Nat :=
  dynclk_calculate_divider hdr.CLK_BIT_WEDGE screen.dynclk.postscaler

/-- The local `lock_l` of `pynqz1_fb_probe`:
`(u32)(lock_lookup[8 - 1] & 0xffffffffu)`. -/
def probe_lock_l : Nat :=
  u32 (lock_lookup.getD (8 - 1) 0 &&& 0xffffffff)

/-- The local `filter_lock_h` of `pynqz1_fb_probe`:
`(u32)(lock_lookup[8 - 1] >> 32) | ((filter_lookup_low[8 - 1] & 0x3ffu) << 16)`. -/
def probe_filter_lock_h : Nat :=
  u32 (lock_lookup.getD (8 - 1) 0 >>> 32) ||| shl32 (filter_lookup_low.getD (8 - 1) 0 &&& 0x3ff) 16

/-- Part of `pynqz1_fb_probe`: the block `Enable dynamically generated clock`,
then the rest of the probe. `fbdev->screen_param` has been set by
`pynqz1_fb_parse_dt`. -/
def probe_dynclk (hdr : Header) (env : Env) (fbdev : pynqz1_fb_device)
    (trace : List Event) : Outcome :=
  let trace := trace ++
    [dynclk_write_reg hdr.OFST_DISPLAY_CTRL 0, .mdelay 1, dynclk_read_reg hdr.OFST_DISPLAY_STATUS]
  if u32 env.status_after_stop &&& (1 <<< BIT_CLOCK_RUNNING) ≠ 0 then
    RELEASE_AND_RETURN hdr (-ENOMEM) fbdev (trace ++ [.dev_err .failed_to_stop_clock])
  else
    let screen := screen_param_at (fbdev.screen_param.getD 0)
    let clk_l := probe_clk_l hdr screen
    let fb_l := probe_fb_l hdr screen
    let div_ := probe_div hdr screen
    let lock_l := probe_lock_l
    let filter_lock_h := probe_filter_lock_h
    let trace := trace ++
      [.dev_info (.dynclk_clk_l clk_l),
       .dev_info (.dynclk_fb_l fb_l),
       .dev_info (.dynclk_div div_),
       .dev_info (.dynclk_lock_l lock_l),
       .dev_info (.dynclk_filter_lock_h filter_lock_h),
       dynclk_write_reg hdr.OFST_DISPLAY_CLK_L clk_l,
       dynclk_write_reg hdr.OFST_DISPLAY_FB_L fb_l,
       dynclk_write_reg hdr.OFST_DISPLAY_FB_H_CLK_H 0,
       dynclk_write_reg hdr.OFST_DISPLAY_DIV div_,
       dynclk_write_reg hdr.OFST_DISPLAY_LOCK_L lock_l,
       dynclk_write_reg hdr.OFST_DISPLAY_FLTR_LOCK_H filter_lock_h,
       dynclk_write_reg hdr.OFST_DISPLAY_CTRL (1 <<< BIT_DISPLAY_START),
       .mdelay 1,
       dynclk_read_reg hdr.OFST_DISPLAY_STATUS]
    if u32 env.status_after_start &&& (1 <<< BIT_CLOCK_RUNNING) = 0 then
      RELEASE_AND_RETURN hdr (-ENOMEM) fbdev (trace ++ [.dev_err .failed_to_start_clock])
    else
      probe_vtc hdr env fbdev (trace ++ [.dev_info .dynclk_configured])

/-- Part of `pynqz1_fb_probe`: the block `Initialize other framebuffer
parameters`, for the buffer size `fbsize`. -/
def probe_init_info (fbdev : pynqz1_fb_device) (fbsize : Nat) : pynqz1_fb_device :=
  let fbdev := { fbdev with stride := u32 (fbdev.width * BYTES_PER_PIXEL) }
  let frame0 := fbdev.frame.getD 0 ⟨0, none⟩
  let screen := screen_param_at (fbdev.screen_param.getD 0)
  let info := fbdev.info
  let info := { info with device := true }
  let info := { info with pseudo_palette := true }
  let info := { info with screen_base := frame0.virt }
  let info := { info with fbops := true }
  let info := { info with fix := pynqz1_fb_fix }
  let info := { info with fix := { info.fix with smem_start := frame0.phys } }
  let info := { info with fix := { info.fix with smem_len := fbsize } }
  let info := { info with fix := { info.fix with line_length := fbdev.stride } }
  let info := { info with var := pynqz1_fb_var }
  let info := { info with var := { info.var with xres := screen.width } }
  let info := { info with var := { info.var with yres := screen.height } }
  let info := { info with var := { info.var with xres_virtual := info.var.xres } }
  let info := { info with var := { info.var with yres_virtual := info.var.yres } }
  let info := { info with var := { info.var with width := u32 (info.var.xres * 5) / 96 / 2 } }
  let info := { info with var := { info.var with height := u32 (info.var.yres * 5) / 96 / 2 } }
  { fbdev with info := info }

/-- Part of `pynqz1_fb_probe`: the loop `Allocate framebuffer` from frame `i`
on, with `n` frames left, then the rest of the probe. -/
def probe_alloc (hdr : Header) (env : Env) (fbsize : Nat) :
    Nat → Nat → pynqz1_fb_device → List Event → Outcome
  | 0, _, fbdev, trace => probe_dynclk hdr env (probe_init_info fbdev fbsize) trace
  | n + 1, i, fbdev, trace =>
    let trace := trace ++ [.dma_alloc_coherent fbsize]
    match env.dma_alloc_coherent i with
    | none => ⟨-ENOMEM, some fbdev, trace ++ [.dev_err .failed_to_allocate]⟩
    | some (virt, phys) =>
      let fbdev := { fbdev with
        frame := fbdev.frame.set i { fbdev.frame.getD i ⟨0, none⟩ with phys := phys } }
      let trace := trace ++ [.memset_io virt fbsize]
      let fbdev := { fbdev with
        frame := fbdev.frame.set i { fbdev.frame.getD i ⟨0, none⟩ with virt := some virt } }
      probe_alloc hdr env fbsize n (i + 1) fbdev trace

/-- Part of `pynqz1_fb_probe`: the loop `Map registers to memory space` from
`regIndex` on, with `n` resources left, then the rest of the probe. -/
def probe_map (hdr : Header) (env : Env) (fbsize : Nat) :
    Nat → Nat → pynqz1_fb_device → List Event → Outcome
  | 0, _, fbdev, trace => probe_alloc hdr env fbsize FB_NUMBER_OF_FRAMES 0 fbdev trace
  | n + 1, regIndex, fbdev, trace =>
    match env.platform_get_resource regIndex with
    | none => RELEASE_AND_RETURN hdr (-ENODEV) fbdev (trace ++ [.dev_err .no_memory_resource])
    | some io =>
      match env.devm_ioremap_resource io with
      | .error err => RELEASE_AND_RETURN hdr err fbdev (trace ++ [.dev_err .failed_to_map])
      | .ok reg =>
        let fbdev :=
          match regIndex with
          | 0 => { fbdev with reg_dynclk := some reg }
          | 1 => { fbdev with reg_vtc := some reg }
          | 2 => { fbdev with reg_vdma := some reg }
          | _ => fbdev
        let trace :=
          match regIndex with
          | 0 => trace ++ [.dev_info (.mapped .dynclk reg)]
          | 1 => trace ++ [.dev_info (.mapped .vtc reg)]
          | 2 => trace ++ [.dev_info (.mapped .vdma reg)]
          | _ => trace
        probe_map hdr env fbsize n (regIndex + 1) fbdev trace

/-- The C function `pynqz1_fb_probe`. -/
def pynqz1_fb_probe (hdr : Header) (env : Env) : Outcome :=
  let trace : List Event := [.dev_info .probing]
  if !env.devm_kzalloc then
    ⟨-ENOMEM, none, trace⟩
  else
    let fbdev := zeroed_device
    let parsed := pynqz1_fb_parse_dt env fbdev
    if parsed.rc ≠ 0 then
      ⟨parsed.rc, parsed.fbdev, trace ++ parsed.trace⟩
    else
      let fbdev := parsed.fbdev.getD fbdev
      let fbsize := GET_FB_SIZE fbdev
      probe_map hdr env fbsize NUMBER_OF_MEM_RESOURCES 0 fbdev (trace ++ parsed.trace)

/-- The C function `pynqz1_fb_remove`, on the driver data of the platform device. -/
def pynqz1_fb_remove (hdr : Header) (fbdev : Option pynqz1_fb_device) :
    Int × Option pynqz1_fb_device × List Event :=
  match fbdev with
  | some fbdev =>
    let r := pynqz1_fb_release hdr (some fbdev)
    (0, r.1, r.2)
  | none => (0, none, [])

/-! ## Sample inputs

Concrete inputs on which the model is evaluated. -/

/-- A sample content of `pynqz1fb.h`: the register maps of the dynamic clock
generator, the video timing controller and the video DMA core. It only serves
to instantiate statements that hold for every header. -/
def sample_header : Header :=
  { CLK_BIT_WEDGE := 13,
    OFST_DISPLAY_CTRL := 0x00, OFST_DISPLAY_STATUS := 0x04, OFST_DISPLAY_CLK_L := 0x08,
    OFST_DISPLAY_FB_L := 0x0c, OFST_DISPLAY_FB_H_CLK_H := 0x10, OFST_DISPLAY_DIV := 0x14,
    OFST_DISPLAY_LOCK_L := 0x18, OFST_DISPLAY_FLTR_LOCK_H := 0x1c,
    VTC_REG_CTL := 0x000, VTC_REG_GPOL := 0x06c, VTC_REG_GASIZE := 0x060,
    VTC_REG_GHSIZE := 0x070, VTC_REG_GVSIZE := 0x074, VTC_REG_GHSYNC := 0x078,
    VTC_REG_GVBHOFF := 0x07c, VTC_REG_GVSYNC := 0x080, VTC_REG_GVSHOFF := 0x084,
    VTC_REG_GVBHOFF_F1 := 0x088, VTC_REG_GVSYNC_F1 := 0x08c, VTC_REG_GVSHOFF_F1 := 0x090,
    VTC_REG_GFENC := 0x068,
    VTC_CTL_RESET_MASK := 0x80000000, VTC_CTL_SW_MASK := 0x00000001,
    VTC_CTL_GE_MASK := 0x00000004, VTC_CTL_DE_MASK := 0x00000008,
    VTC_CTL_RU_MASK := 0x00000002, VTC_CTL_ALLSS_MASK := 0x03f7ef00,
    VTC_CTL_ACPSS_MASK := 0x02000000, VTC_CTL_AVPSS_MASK := 0x01000000,
    VTC_CTL_HSPSS_MASK := 0x00800000, VTC_CTL_VSPSS_MASK := 0x00400000,
    VTC_CTL_HBPSS_MASK := 0x00200000, VTC_CTL_VBPSS_MASK := 0x00100000,
    VTC_CTL_VCSS_MASK := 0x00040000, VTC_CTL_VASS_MASK := 0x00020000,
    VTC_CTL_VBSS_MASK := 0x00010000, VTC_CTL_VSSS_MASK := 0x00008000,
    VTC_CTL_VFSS_MASK := 0x00004000, VTC_CTL_VTSS_MASK := 0x00002000,
    VTC_CTL_HBSS_MASK := 0x00001000, VTC_CTL_HSSS_MASK := 0x00000800,
    VTC_CTL_HFSS_MASK := 0x00000400, VTC_CTL_HTSS_MASK := 0x00000200,
    VTC_POL_ALLP_MASK := 0x0000007f,
    VTC_ASIZE_VERT_SHIFT := 16, VTC_VSIZE_F1_SHIFT := 16, VTC_SB_END_SHIFT := 16,
    VTC_ENC_CPARITY_MASK := 0x00000100, VTC_ENC_PROG_MASK := 0x00000040,
    VDMA_REG_TX := 0x00, VDMA_REG_RX := 0x30, VDMA_REG_CR := 0x00,
    VDMA_REG_MM2S_ADDR := 0x50, VDMA_REG_HSIZE := 0x04, VDMA_REG_STRD_FRMDLY := 0x08,
    VDMA_REG_START_ADDR := 0x0c, VDMA_REG_VSIZE := 0x00, VDMA_REG_PARKPTR := 0x28,
    VDMA_START_ADDR_LEN := 4, VDMA_FRMDLY_SHIFT := 24,
    VDMA_CR_RESET_MASK := 0x00000004, VDMA_CR_RUNSTOP_MASK := 0x00000001,
    VDMA_CR_TAIL_EN_MASK := 0x00000002, VDMA_PARKPTR_READREF_MASK := 0x0000001f }

/-- A platform on which every step of the probe succeeds, for the requested
resolution `width` x `height`: the three register blocks map at `0xe0000000`,
`0xe0010000` and `0xe0020000`, the frame buffer is allocated at virtual address
`0xc1000000` and bus address `0x1f000000`, the clock reports stopped after the
stop command and running after the start command, and the optional `debug`
property is absent. -/
def env_ok (width height : Nat) : Env :=
  { devm_kzalloc := true,
    of_width := ⟨0, width⟩, of_height := ⟨0, height⟩, of_debug := ⟨-EINVAL, 0⟩,
    platform_get_resource := fun regIndex => if regIndex < 3 then some regIndex else none,
    devm_ioremap_resource := fun io => .ok (0xe0000000 + io * 0x10000),
    dma_alloc_coherent := fun _ => some (0xc1000000, 0x1f000000),
    status_after_stop := 0, status_after_start := 1,
    vtc_ctl_first := 0, vtc_ctl_second := 0, vtc_gfenc := 0,
    vdma_tx_cr_first := 0, vdma_parkptr := 0, vdma_tx_cr_second := 0,
    register_framebuffer := 0 }

/-- As `env_ok 640 480`, but the frame-buffer allocation fails. -/
def env_alloc_fails : Env :=
  { env_ok 640 480 with dma_alloc_coherent := fun _ => none }

/-- As `env_ok 640 480`, but the clock still reports running after the stop command. -/
def env_clock_never_stops : Env :=
  { env_ok 640 480 with status_after_stop := 1 }

/-- As `env_ok 640 480`, but the clock never reports running after the start command. -/
def env_clock_never_starts : Env :=
  { env_ok 640 480 with status_after_start := 0 }

/-- As `env_ok 640 480`, but the first register resource is missing. -/
def env_no_resource : Env :=
  { env_ok 640 480 with platform_get_resource := fun _ => none }

/-- As `env_ok 640 480`, but `register_framebuffer` fails with `-EINVAL`. -/
def env_register_fails : Env :=
  { env_ok 640 480 with register_framebuffer := -EINVAL }

/-! ## Notions used in the statements -/

/-- Some record of the mode table before the sentinel has exactly this width
and height. -/
def supported (width height : Nat) : Prop :=
  ∃ r ∈ pynqz1_fb_screen_params, r.width ≠ 0 ∧ r.width = width ∧ r.height = height

/-- The probe gets past `pynqz1_fb_parse_dt`. -/
def parses (env : Env) : Prop :=
  env.devm_kzalloc = true ∧ env.of_width.ret = 0 ∧ env.of_height.ret = 0

/-- The address at which register resource `regIndex` gets mapped: `none` when the
resource is missing or the mapping fails. -/
def mapped_at (env : Env) (regIndex : Nat) : Option Nat :=
  match env.platform_get_resource regIndex with
  | none => none
  | some io =>
    match env.devm_ioremap_resource io with
    | .ok reg => some reg
    | .error _ => none

/-- The three register resources exist and are mapped at `r0`, `r1`, `r2`. -/
def maps (env : Env) (r0 r1 r2 : Nat) : Prop :=
  mapped_at env 0 = some r0 ∧ mapped_at env 1 = some r1 ∧ mapped_at env 2 = some r2

/-- The device structure after a successful `pynqz1_fb_parse_dt` on a zeroed
device that resolved to the record at position `i`. -/
def parsed_device (env : Env) (i : Nat) : pynqz1_fb_device :=
  { zeroed_device with
    width := (screen_param_at i).width, height := (screen_param_at i).height,
    screen_param := some i,
    debug := if env.of_debug.ret ≠ 0 then 0 else u32 env.of_debug.value }

/-- The device structure once the three register blocks are mapped. -/
def mapped_device (env : Env) (i r0 r1 r2 : Nat) : pynqz1_fb_device :=
  { parsed_device env i with reg_dynclk := some r0, reg_vtc := some r1, reg_vdma := some r2 }

/-- The events of the probe up to the allocation of the frame buffer, when the
three register blocks are mapped at `r0`, `r1`, `r2`. -/
def mapped_trace (env : Env) (r0 r1 r2 : Nat) : List Event :=
  [.dev_info .probing] ++ (pynqz1_fb_parse_dt env zeroed_device).trace ++
    [.dev_info (.mapped .dynclk r0), .dev_info (.mapped .vtc r1), .dev_info (.mapped .vdma r2)]

/-- The device structure once frame 0 is allocated at `(virt, phys)` and the
frame-buffer parameters are initialised. -/
def allocated_device (d : pynqz1_fb_device) (size virt phys : Nat) : pynqz1_fb_device :=
  probe_init_info { d with frame := [⟨phys, some virt⟩] } size

/-- The register resources before index `k` exist and are mapped; resource `k` is missing. -/
def resource_missing (env : Env) (k : Nat) : Prop :=
  k < NUMBER_OF_MEM_RESOURCES ∧
  (∀ j, j < k → (mapped_at env j).isSome = true) ∧
  env.platform_get_resource k = none

instance (width height : Nat) : Decidable (supported width height) := by
  unfold supported; infer_instance

instance (env : Env) : Decidable (parses env) := by
  unfold parses; infer_instance

instance (env : Env) (r0 r1 r2 : Nat) : Decidable (maps env r0 r1 r2) := by
  unfold maps; infer_instance

instance (env : Env) (k : Nat) : Decidable (resource_missing env k) := by
  unfold resource_missing; infer_instance

/-- The events of the block `Enable dynamically generated clock` of
`pynqz1_fb_probe` when the clock stops and starts as commanded, in order. -/
def clock_sequence (hdr : Header) (fbdev : pynqz1_fb_device) : List Event :=
  let screen := screen_param_at (fbdev.screen_param.getD 0)
  [dynclk_write_reg hdr.OFST_DISPLAY_CTRL 0, .mdelay 1, dynclk_read_reg hdr.OFST_DISPLAY_STATUS,
   .dev_info (.dynclk_clk_l (probe_clk_l hdr screen)),
   .dev_info (.dynclk_fb_l (probe_fb_l hdr screen)),
   .dev_info (.dynclk_div (probe_div hdr screen)),
   .dev_info (.dynclk_lock_l probe_lock_l),
   .dev_info (.dynclk_filter_lock_h probe_filter_lock_h),
   dynclk_write_reg hdr.OFST_DISPLAY_CLK_L (probe_clk_l hdr screen),
   dynclk_write_reg hdr.OFST_DISPLAY_FB_L (probe_fb_l hdr screen),
   dynclk_write_reg hdr.OFST_DISPLAY_FB_H_CLK_H 0,
   dynclk_write_reg hdr.OFST_DISPLAY_DIV (probe_div hdr screen),
   dynclk_write_reg hdr.OFST_DISPLAY_LOCK_L probe_lock_l,
   dynclk_write_reg hdr.OFST_DISPLAY_FLTR_LOCK_H probe_filter_lock_h,
   dynclk_write_reg hdr.OFST_DISPLAY_CTRL (1 <<< BIT_DISPLAY_START),
   .mdelay 1,
   dynclk_read_reg hdr.OFST_DISPLAY_STATUS]

/-- The events of the probe from the clock block to the end of the DMA block,
when the clock stops and starts as commanded. -/
def bringup_trace (hdr : Header) (env : Env) (fbdev : pynqz1_fb_device) : List Event :=
  clock_sequence hdr fbdev ++ [.dev_info .dynclk_configured] ++
    vtc_sequence hdr env fbdev ++ [.dev_info .vtc_configured] ++
    vdma_sequence hdr env fbdev ++ [.dev_info .vdma_configured]

/-- The writes to the registers of the DMA engine among the events, in order,
as pairs of offset and value. -/
def vdma_writes (trace : List Event) : List (Nat × Nat) :=
  trace.filterMap fun e =>
    match e with
    | .iowrite32 .vdma offset value => some (offset, value)
    | _ => none

/-- The clock reports stopped after the stop command and running after the
start command. -/
def clock_ok (env : Env) : Prop :=
  u32 env.status_after_stop &&& (1 <<< BIT_CLOCK_RUNNING) = 0 ∧
  u32 env.status_after_start &&& (1 <<< BIT_CLOCK_RUNNING) ≠ 0

instance (env : Env) : Decidable (clock_ok env) := by
  unfold clock_ok; infer_instance

/-- The error with which the mapping of register resource `regIndex` fails: `none`
when the resource is missing or its mapping succeeds. -/
def mapping_error (env : Env) (regIndex : Nat) : Option Int :=
  match env.platform_get_resource regIndex with
  | none => none
  | some io =>
    match env.devm_ioremap_resource io with
    | .ok _ => none
    | .error err => some err

/-- The register resources before index `k` exist and are mapped; resource `k`
exists and its mapping fails with the error `err`. -/
def mapping_fails (env : Env) (k : Nat) (err : Int) : Prop :=
  k < NUMBER_OF_MEM_RESOURCES ∧
  (∀ j, j < k → (mapped_at env j).isSome = true) ∧
  mapping_error env k = some err

instance (env : Env) (k : Nat) (err : Int) : Decidable (mapping_fails env k err) := by
  unfold mapping_fails; infer_instance

/-! # Theorems -/

/-! ## Resolution lookup -/

theorem u32_of_lt {x : Nat} (h : x < U32) : u32 x = x := Nat.mod_eq_of_lt h

theorem scan_table (w h : Nat) :
    scan_screen_params w h pynqz1_fb_screen_params 0 =
      if w = 640 ∧ h = 480 then 0
      else if w = 800 ∧ h = 480 then 1
      else if w = 800 ∧ h = 600 then 2
      else if w = 1280 ∧ h = 720 then 3
      else if w = 1280 ∧ h = 1024 then 4
      else if w = 1920 ∧ h = 1080 then 5
      else 6 := by
  simp only [scan_screen_params, pynqz1_fb_screen_params, sentinel_param]
  simp only [bne_iff_ne, ne_eq, Bool.and_eq_true, beq_iff_eq, OfNat.ofNat_ne_zero,
    not_false_eq_true, if_true, not_true_eq_false, if_false, eq_comm (b := w), eq_comm (b := h)]

theorem supported_iff (w h : Nat) :
    supported w h ↔ (w = 640 ∧ h = 480) ∨ (w = 800 ∧ h = 480) ∨ (w = 800 ∧ h = 600) ∨
      (w = 1280 ∧ h = 720) ∨ (w = 1280 ∧ h = 1024) ∨ (w = 1920 ∧ h = 1080) := by
  simp [supported, pynqz1_fb_screen_params, sentinel_param, eq_comm]

/-- The position at which the scan stops holds a record that matches the
request, or it is the sentinel's position and no record matches. -/
theorem scan_table_spec (w h : Nat) :
    (supported w h ∧ scan_screen_params w h pynqz1_fb_screen_params 0 < 6 ∧
      (screen_param_at (scan_screen_params w h pynqz1_fb_screen_params 0)).width = w ∧
      (screen_param_at (scan_screen_params w h pynqz1_fb_screen_params 0)).height = h ∧
      (screen_param_at (scan_screen_params w h pynqz1_fb_screen_params 0)).width ≠ 0) ∨
    (¬ supported w h ∧ scan_screen_params w h pynqz1_fb_screen_params 0 = 6) := by
  rw [scan_table, supported_iff]
  by_cases h0 : w = 640 ∧ h = 480
  · left; obtain ⟨rfl, rfl⟩ := h0; simp [screen_param_at, pynqz1_fb_screen_params]
  by_cases h1 : w = 800 ∧ h = 480
  · left; obtain ⟨rfl, rfl⟩ := h1; simp [screen_param_at, pynqz1_fb_screen_params]
  by_cases h2 : w = 800 ∧ h = 600
  · left; obtain ⟨rfl, rfl⟩ := h2; simp [screen_param_at, pynqz1_fb_screen_params]
  by_cases h3 : w = 1280 ∧ h = 720
  · left; obtain ⟨rfl, rfl⟩ := h3; simp [screen_param_at, pynqz1_fb_screen_params]
  by_cases h4 : w = 1280 ∧ h = 1024
  · left; obtain ⟨rfl, rfl⟩ := h4; simp [screen_param_at, pynqz1_fb_screen_params]
  by_cases h5 : w = 1920 ∧ h = 1080
  · left; obtain ⟨rfl, rfl⟩ := h5; simp [screen_param_at, pynqz1_fb_screen_params]
  right
  simp only [h0, h1, h2, h3, h4, h5, if_false, or_self, not_false_eq_true, and_self]

/-- Two records before the sentinel with the same width and height are at the same position. -/
theorem table_unique (i j : Nat) (r : pynqz1_fb_screen_param)
    (hi : pynqz1_fb_screen_params[i]? = some r) (hr : r.width ≠ 0)
    (hj : j < 6) (hw : (screen_param_at j).width = r.width)
    (hh : (screen_param_at j).height = r.height) : j = i := by
  have hi6 : i < 7 := by
    by_contra hc
    have : pynqz1_fb_screen_params[i]? = none := by
      apply List.getElem?_eq_none; simp [pynqz1_fb_screen_params]; omega
    simp [this] at hi
  interval_cases i <;> simp [pynqz1_fb_screen_params, sentinel_param] at hi <;> subst hi <;>
    interval_cases j <;> simp_all [screen_param_at, pynqz1_fb_screen_params]

/-- C1: resolution lookup in `pynqz1_fb_parse_dt`. When both properties are read
(return code 0, values `width` and `height`), the function returns 0 and:
if a record before the sentinel has exactly that width and height, the selected
`screen_param` is that record, the device width and height are left as
requested and only the "select" notice is printed; otherwise the selected
`screen_param` is the first record, the device width and height are overwritten
with 640 and 480 and the "not supported" and "fall back" notices are printed.
The "not supported" notice is printed if and only if no record matches. -/
theorem C1_parse_dt_lookup (env : Env) (fbdev : pynqz1_fb_device) (width height : Nat)
    (hwret : env.of_width.ret = 0) (hhret : env.of_height.ret = 0)
    (hw : env.of_width.value = width) (hh : env.of_height.value = height)
    (hwlt : width < U32) (hhlt : height < U32) :
    (pynqz1_fb_parse_dt env fbdev).rc = 0 ∧
    (∀ i r, pynqz1_fb_screen_params[i]? = some r → r.width ≠ 0 →
        r.width = width → r.height = height →
        ∃ d, (pynqz1_fb_parse_dt env fbdev).fbdev = some d ∧ d.screen_param = some i ∧
          d.width = width ∧ d.height = height ∧
          (pynqz1_fb_parse_dt env fbdev).trace =
            [.dev_info (.select_resolution width height)]) ∧
    (¬ supported width height →
        ∃ d, (pynqz1_fb_parse_dt env fbdev).fbdev = some d ∧ d.screen_param = some 0 ∧
          (screen_param_at 0).width = 640 ∧ (screen_param_at 0).height = 480 ∧
          d.width = 640 ∧ d.height = 480 ∧
          (pynqz1_fb_parse_dt env fbdev).trace =
            [.dev_info (.not_supported width height), .dev_info (.fall_back 640 480)]) ∧
    (Event.dev_info (.not_supported width height) ∈ (pynqz1_fb_parse_dt env fbdev).trace ↔
        ¬ supported width height) := by
  have hs := scan_table_spec width height
  rcases hs with ⟨hsup, hlt, hsw, hsh, hne⟩ | ⟨hnsup, h6⟩
  · have hpd : ∃ d, (pynqz1_fb_parse_dt env fbdev).fbdev = some d ∧
        d.screen_param = some (scan_screen_params width height pynqz1_fb_screen_params 0) ∧
        d.width = width ∧ d.height = height ∧
        (pynqz1_fb_parse_dt env fbdev).trace = [.dev_info (.select_resolution width height)] ∧
        (pynqz1_fb_parse_dt env fbdev).rc = 0 := by
      simp only [pynqz1_fb_parse_dt, parse_dt_finish, hwret, hhret, hw, hh, u32_of_lt hwlt,
        u32_of_lt hhlt, ne_eq, not_true_eq_false, if_false, beq_iff_eq, hne]
      split_ifs <;> simp
    obtain ⟨d, hd, hsp, hdw, hdh, htr, hrc⟩ := hpd
    refine ⟨hrc, ?_, ?_, ?_⟩
    · intro i r hi hr0 hrw hrh
      refine ⟨d, hd, ?_, hdw, hdh, htr⟩
      rw [hsp, table_unique i _ r hi hr0 hlt (by rw [hsw, hrw]) (by rw [hsh, hrh])]
    · intro hn; exact absurd hsup hn
    · rw [htr]; simp [hsup]
  · have hpd : ∃ d, (pynqz1_fb_parse_dt env fbdev).fbdev = some d ∧
        d.screen_param = some 0 ∧ d.width = 640 ∧ d.height = 480 ∧
        (pynqz1_fb_parse_dt env fbdev).trace =
          [.dev_info (.not_supported width height), .dev_info (.fall_back 640 480)] ∧
        (pynqz1_fb_parse_dt env fbdev).rc = 0 := by
      simp only [pynqz1_fb_parse_dt, parse_dt_finish, hwret, hhret, hw, hh, u32_of_lt hwlt,
        u32_of_lt hhlt, ne_eq, not_true_eq_false, if_false, beq_iff_eq, h6]
      simp [screen_param_at, pynqz1_fb_screen_params, sentinel_param]
      split_ifs <;> simp
    obtain ⟨d, hd, hsp, hdw, hdh, htr, hrc⟩ := hpd
    refine ⟨hrc, ?_, ?_, ?_⟩
    · intro i r hi hr0 hrw hrh
      exact absurd ⟨r, List.getElem?_mem hi, hr0, hrw, hrh⟩ hnsup
    · intro _; exact ⟨d, hd, hsp, rfl, rfl, hdw, hdh, htr⟩
    · rw [htr]; simp [hnsup]

/-- C1 at the request 1280 x 720, which is the record at position 3. -/
theorem C1_parse_dt_lookup_witness :
    ∃ d, (pynqz1_fb_parse_dt (env_ok 1280 720) zeroed_device).fbdev = some d ∧
      d.screen_param = some 3 ∧ d.width = 1280 ∧ d.height = 720 ∧
      (pynqz1_fb_parse_dt (env_ok 1280 720) zeroed_device).trace =
        [.dev_info (.select_resolution 1280 720)] :=
  (C1_parse_dt_lookup (env_ok 1280 720) zeroed_device 1280 720 rfl rfl rfl rfl
    (by decide) (by decide)).2.1 3 (screen_param_at 3) rfl (by decide) rfl rfl


/-! ## Clock divider -/

theorem and_0x3f (x : Nat) : x &&& 0x3f = x % 64 := by
  have h := Nat.and_pow_two_sub_one_eq_mod x 6
  simpa using h

theorem and_0xfff (x : Nat) : x &&& 0xfff = x % 4096 := by
  have h := Nat.and_pow_two_sub_one_eq_mod x 12
  simpa using h

theorem and_0x3000 (x : Nat) : x &&& 0x3000 = (x / 4096 % 4) * 4096 := by
  have e : (0x3000 : Nat) = (2 ^ 2 - 1) <<< 12 := by decide
  have r : (x / 4096 % 4) * 4096 = ((x >>> 12) % 2 ^ 2) <<< 12 := by
    rw [Nat.shiftLeft_eq, Nat.shiftRight_eq_div_pow]; norm_num
  rw [r, e]
  apply Nat.eq_of_testBit_eq
  intro i
  simp only [Nat.testBit_and, Nat.testBit_shiftLeft, Nat.testBit_two_pow_sub_one,
    Nat.testBit_mod_two_pow, Nat.testBit_shiftRight]
  by_cases h : 12 ≤ i
  · have : 12 + (i - 12) = i := by omega
    simp [h, this, Bool.and_comm]
  · simp [h]

theorem or_shl (k lo hi : Nat) (h : lo < 2 ^ k) : lo ||| (hi <<< k) = hi * 2 ^ k + lo := by
  rw [Nat.lor_comm, Nat.shiftLeft_eq, Nat.mul_comm hi, Nat.mul_add_lt_is_or h]

theorem bits_low (r : Nat) : bits r 0 6 = r % 64 := by simp [bits]

theorem bits_high (r : Nat) : bits r 6 12 = r / 64 % 64 := by
  simp [bits, Nat.shiftRight_eq_div_pow]

/-- The two packed 6-bit fields of the divider register. -/
theorem pack_fields (lo hi : Nat) :
    shl32 (lo &&& 0x3f) 0 ||| shl32 (hi &&& 0x3f) 6 = hi % 64 * 64 + lo % 64 := by
  have h1 : shl32 (lo % 64) 0 = lo % 64 := by
    simp only [shl32, u32, U32, Nat.shiftLeft_zero]; omega
  have h2 : shl32 (hi % 64) 6 = (hi % 64) <<< 6 := by
    simp only [shl32, u32, U32, Nat.shiftLeft_eq]; omega
  rw [and_0x3f, and_0x3f, h1, h2, or_shl 6 _ _ (by omega)]
  norm_num

/-- Closed form of `dynclk_calculate_divider` on an even divisor. -/
theorem divider_even (w n : Nat) (he : n % 2 = 0) :
    dynclk_calculate_divider w n = n / 2 % 64 * 64 + (n - n / 2) % 64 := by
  have h1 : (n == 1) = false := by simp; omega
  have h2 : (n &&& 1 != 0) = false := by simp [Nat.and_one_is_mod, he]
  simp only [dynclk_calculate_divider, h1, h2, Bool.false_eq_true, if_false, Nat.lor_assoc,
    pack_fields, Nat.zero_or]

/-- Closed form of `dynclk_calculate_divider` on an odd divisor other than 1. -/
theorem divider_odd (w n : Nat) (ho : n % 2 = 1) (h1 : n ≠ 1) (hn : n < U32) :
    dynclk_calculate_divider w n = shl32 1 w ||| (n / 2 % 64 * 64 + (n - n / 2 + 1) % 64) := by
  have h1 : (n == 1) = false := by simp [h1]
  have h2 : (n &&& 1 != 0) = true := by simp [Nat.and_one_is_mod, ho]
  have h3 : u32 (n - n / 2 + 1) = n - n / 2 + 1 := by
    simp only [u32, U32] at *; omega
  simp only [dynclk_calculate_divider, h1, h2, Bool.false_eq_true, if_false, if_true,
    Nat.lor_assoc, pack_fields, h3]

theorem shl32_one (w : Nat) (hw : w < 32) : shl32 1 w = 2 ^ w := by
  simp only [shl32, u32, U32, Nat.shiftLeft_eq, Nat.one_mul]
  exact Nat.mod_eq_of_lt (Nat.pow_lt_pow_right (by norm_num) hw)

theorem two_pow_split (w : Nat) (hw : 12 ≤ w) : 2 ^ w = 4096 * 2 ^ (w - 12) := by
  rw [show (4096 : Nat) = 2 ^ 12 by norm_num, ← pow_add]; congr 1; omega

/-- A flag at bit 12 or above does not disturb the twelve packed bits. -/
theorem flag_or (w p : Nat) (hw : 12 ≤ w) (hp : p < 4096) :
    2 ^ w ||| p = 4096 * 2 ^ (w - 12) + p := by
  have hlt : p < 2 ^ w := by
    calc p < 2 ^ 12 := by norm_num; exact hp
      _ ≤ 2 ^ w := Nat.pow_le_pow_right (by norm_num) hw
  have := Nat.mul_add_lt_is_or hlt 1
  rw [Nat.mul_one] at this
  rw [← this, two_pow_split w hw]

theorem and_two_pow_of_lt (w p : Nat) (hw : 12 ≤ w) (hp : p < 4096) : p &&& shl32 1 w = 0 := by
  have hlt : p < 2 ^ w := by
    calc p < 2 ^ 12 := by norm_num; exact hp
      _ ≤ 2 ^ w := Nat.pow_le_pow_right (by norm_num) hw
  apply Nat.eq_of_testBit_eq
  intro i
  simp only [shl32, u32, U32, Nat.shiftLeft_eq, Nat.one_mul, Nat.testBit_and,
    Nat.testBit_mod_two_pow, Nat.testBit_two_pow, Nat.zero_testBit]
  by_cases hi : w = i
  · subst hi; simp [Nat.testBit_lt_two_pow hlt]
  · simp [hi]

theorem flag_set (w p : Nat) (hw : w < 32) : (shl32 1 w ||| p) &&& shl32 1 w ≠ 0 := by
  rw [shl32_one w hw]
  intro h
  have := congrArg (fun x => Nat.testBit x w) h
  simp [Nat.testBit_two_pow_self] at this

/-- C2, as the code behaves: for every odd `n` with `3 ≤ n ≤ 127` (and the flag
bit `CLK_BIT_WEDGE` at a position in `12 .. 31`), `dynclk_calculate_divider n`
has the phase-edge flag set and `high = n / 2`, but `low = (high + 2) mod 64`:
the low field is never `high + 1`. -/
theorem C2_odd_divider (w n : Nat) (hw : 12 ≤ w) (hw32 : w < 32) (ho : n % 2 = 1)
    (h3 : 3 ≤ n) (h127 : n ≤ 127) :
    dynclk_calculate_divider w n &&& shl32 1 w ≠ 0 ∧
    bits (dynclk_calculate_divider w n) 6 12 = n / 2 ∧
    bits (dynclk_calculate_divider w n) 0 6 = (n / 2 + 2) % 64 ∧
    bits (dynclk_calculate_divider w n) 0 6 ≠ bits (dynclk_calculate_divider w n) 6 12 + 1 := by
  rw [divider_odd w n ho (by omega) (by simp only [U32]; omega)]
  refine ⟨flag_set w _ hw32, ?_⟩
  rw [shl32_one w hw32, flag_or w _ hw (by omega), bits_low, bits_high]
  generalize 2 ^ (w - 12) = k
  refine ⟨by omega, by omega, by omega⟩

/-- C2 at `n = 3` with the flag at bit 13: `low = 3` and `high = 1`. -/
theorem C2_odd_divider_witness :
    dynclk_calculate_divider 13 3 &&& shl32 1 13 ≠ 0 ∧
    bits (dynclk_calculate_divider 13 3) 6 12 = 3 / 2 ∧
    bits (dynclk_calculate_divider 13 3) 0 6 = (3 / 2 + 2) % 64 ∧
    bits (dynclk_calculate_divider 13 3) 0 6 ≠ bits (dynclk_calculate_divider 13 3) 6 12 + 1 :=
  C2_odd_divider 13 3 (by decide) (by decide) (by decide) (by decide) (by decide)

/-- C3, amended: for every even `n` with `2 ≤ n ≤ 128` (and the flag bit
`CLK_BIT_WEDGE` at position 12 or above, outside the packed fields),
`dynclk_calculate_divider n` has the phase-edge flag clear and its fields
satisfy `high = low = (n / 2) mod 64`, where `low` is bits `[0:6)` and `high`
is bits `[6:12)`; this is `n / 2` for `n ≤ 126`. -/
theorem C3_even_divider (w n : Nat) (hw : 12 ≤ w) (he : n % 2 = 0) (h2 : 2 ≤ n)
    (h128 : n ≤ 128) :
    dynclk_calculate_divider w n &&& shl32 1 w = 0 ∧
    bits (dynclk_calculate_divider w n) 6 12 = n / 2 % 64 ∧
    bits (dynclk_calculate_divider w n) 0 6 = n / 2 % 64 ∧
    (n ≤ 126 → n / 2 % 64 = n / 2) := by
  rw [divider_even w n he, bits_low, bits_high]
  refine ⟨and_two_pow_of_lt w _ hw (by omega), by omega, by omega, by omega⟩

/-- C3, amended, at `n = 128` with the flag at bit 13: both fields are 0. -/
theorem C3_even_divider_witness :
    dynclk_calculate_divider 13 128 &&& shl32 1 13 = 0 ∧
    bits (dynclk_calculate_divider 13 128) 6 12 = 128 / 2 % 64 ∧
    bits (dynclk_calculate_divider 13 128) 0 6 = 128 / 2 % 64 ∧
    (128 ≤ 126 → 128 / 2 % 64 = 128 / 2) :=
  C3_even_divider 13 128 (by decide) (by decide) (by decide) (by decide)

/-- C3 fails at `n = 128`: the whole register value is 0 there, so both 6-bit
fields are 0 and not `128 / 2 = 64`. -/
theorem C3_counterexample :
    (128 % 2 = 0 ∧ 2 ≤ 128 ∧ 128 ≤ 128) ∧
    ∀ w, dynclk_calculate_divider w 128 = 0 ∧
      bits (dynclk_calculate_divider w 128) 6 12 ≠ 128 / 2 ∧
      bits (dynclk_calculate_divider w 128) 0 6 ≠ 128 / 2 := by
  refine ⟨by decide, fun w => ?_⟩
  rw [divider_even w 128 (by decide)]
  decide

/-- C4: for every `n`, `dynclk_calculate_divider_config n` agrees with
`dynclk_calculate_divider n` on bits `[0:12)`, carries bits `[12:14)` of
`dynclk_calculate_divider n` at bits `[22:24)`, and has bits `[12:22)` and
`[24:32)` equal to zero; it is a 32-bit value. -/
theorem C4_divider_config (w n : Nat) :
    bits (dynclk_calculate_divider_config w n) 0 12 = bits (dynclk_calculate_divider w n) 0 12 ∧
    bits (dynclk_calculate_divider_config w n) 22 24 = bits (dynclk_calculate_divider w n) 12 14 ∧
    bits (dynclk_calculate_divider_config w n) 12 22 = 0 ∧
    bits (dynclk_calculate_divider_config w n) 24 32 = 0 ∧
    dynclk_calculate_divider_config w n < U32 := by
  simp only [dynclk_calculate_divider_config]
  generalize dynclk_calculate_divider w n = d
  have hs : shl32 (d / 4096 % 4 * 4096) 10 = (d / 4096 % 4) <<< 22 := by
    simp only [shl32, u32, U32, Nat.shiftLeft_eq]; omega
  rw [and_0xfff, and_0x3000, hs, or_shl 22 _ _ (by omega)]
  simp only [bits, Nat.shiftRight_eq_div_pow, U32]
  norm_num
  omega

/-! ## The probe, stage by stage -/

theorem mapped_at_some (env : Env) (j reg : Nat) (h : mapped_at env j = some reg) :
    ∃ io, env.platform_get_resource j = some io ∧ env.devm_ioremap_resource io = .ok reg := by
  unfold mapped_at at h
  cases hg : env.platform_get_resource j with
  | none => simp [hg] at h
  | some io =>
    cases hm : env.devm_ioremap_resource io with
    | error e => simp [hg, hm] at h
    | ok r => simp [hg, hm] at h; exact ⟨io, rfl, by rw [hm, h]⟩

theorem parse_dt_zeroed (env : Env) (hw : env.of_width.ret = 0) (hh : env.of_height.ret = 0) :
    ∃ i, i < 6 ∧ (pynqz1_fb_parse_dt env zeroed_device).rc = 0 ∧
      (pynqz1_fb_parse_dt env zeroed_device).fbdev = some (parsed_device env i) := by
  rcases scan_table_spec (u32 env.of_width.value) (u32 env.of_height.value) with
    ⟨_, hlt, hsw, hsh, hne⟩ | ⟨_, h6⟩
  · refine ⟨_, hlt, ?_⟩
    have hne' : u32 env.of_width.value ≠ 0 := by rw [← hsw]; exact hne
    simp only [pynqz1_fb_parse_dt, parse_dt_finish, hw, hh, ne_eq, not_true_eq_false, if_false,
      beq_iff_eq, hne', parsed_device, hsw, hsh]
    split_ifs <;> simp [zeroed_device]
  · refine ⟨0, by decide, ?_⟩
    have hz : (screen_param_at 6).width = 0 := rfl
    simp only [pynqz1_fb_parse_dt, parse_dt_finish, hw, hh, ne_eq, not_true_eq_false, if_false,
      beq_iff_eq, h6, hz, if_true, parsed_device]
    split_ifs <;> simp [zeroed_device]

theorem probe_to_alloc (hdr : Header) (env : Env) (r0 r1 r2 : Nat)
    (hp : parses env) (hm : maps env r0 r1 r2) :
    ∃ i, i < 6 ∧ pynqz1_fb_probe hdr env =
      probe_alloc hdr env (GET_FB_SIZE (mapped_device env i r0 r1 r2)) FB_NUMBER_OF_FRAMES 0
        (mapped_device env i r0 r1 r2) (mapped_trace env r0 r1 r2) := by
  obtain ⟨hk, hw, hh⟩ := hp
  obtain ⟨h0, h1, h2⟩ := hm
  obtain ⟨io0, g0, m0⟩ := mapped_at_some env 0 r0 h0
  obtain ⟨io1, g1, m1⟩ := mapped_at_some env 1 r1 h1
  obtain ⟨io2, g2, m2⟩ := mapped_at_some env 2 r2 h2
  obtain ⟨i, hi, hrc, hdev⟩ := parse_dt_zeroed env hw hh
  refine ⟨i, hi, ?_⟩
  simp only [pynqz1_fb_probe, hk, hrc, hdev, NUMBER_OF_MEM_RESOURCES, probe_map, g0, m0, g1, m1, g2, m2]
  simp [mapped_device, GET_FB_SIZE, mapped_trace]

theorem probe_alloc_none (hdr : Header) (env : Env) (size : Nat) (d : pynqz1_fb_device)
    (tr : List Event) (h : env.dma_alloc_coherent 0 = none) :
    probe_alloc hdr env size FB_NUMBER_OF_FRAMES 0 d tr =
      ⟨-ENOMEM, some d, tr ++ [.dma_alloc_coherent size, .dev_err .failed_to_allocate]⟩ := by
  simp [FB_NUMBER_OF_FRAMES, probe_alloc, h]

theorem probe_alloc_some (hdr : Header) (env : Env) (size virt phys : Nat)
    (d : pynqz1_fb_device) (tr : List Event) (hf : d.frame = [⟨0, none⟩])
    (h : env.dma_alloc_coherent 0 = some (virt, phys)) :
    probe_alloc hdr env size FB_NUMBER_OF_FRAMES 0 d tr =
      probe_dynclk hdr env (allocated_device d size virt phys)
        (tr ++ [.dma_alloc_coherent size, .memset_io virt size]) := by
  simp [FB_NUMBER_OF_FRAMES, probe_alloc, h, hf, allocated_device]

theorem probe_dynclk_trace (hdr : Header) (env : Env) (d : pynqz1_fb_device) (tr : List Event) :
    ∃ rest, (probe_dynclk hdr env d tr).trace = tr ++ rest := by
  simp only [probe_dynclk, probe_vtc, probe_vdma, probe_register, RELEASE_AND_RETURN]
  split_ifs <;> exact ⟨_, by simp only [List.append_assoc]; rfl⟩

theorem probe_dynclk_stop_fails (hdr : Header) (env : Env) (d : pynqz1_fb_device)
    (tr : List Event) (h : u32 env.status_after_stop &&& (1 <<< BIT_CLOCK_RUNNING) ≠ 0) :
    (probe_dynclk hdr env d tr).rc = -ENOMEM ∧
    Event.dev_err .failed_to_stop_clock ∈ (probe_dynclk hdr env d tr).trace := by
  simp [probe_dynclk, h, RELEASE_AND_RETURN]

theorem probe_dynclk_start_fails (hdr : Header) (env : Env) (d : pynqz1_fb_device)
    (tr : List Event) (h : u32 env.status_after_stop &&& (1 <<< BIT_CLOCK_RUNNING) = 0)
    (h' : u32 env.status_after_start &&& (1 <<< BIT_CLOCK_RUNNING) = 0) :
    (probe_dynclk hdr env d tr).rc = -ENOMEM ∧
    Event.dev_err .failed_to_start_clock ∈ (probe_dynclk hdr env d tr).trace := by
  simp [probe_dynclk, h, h', RELEASE_AND_RETURN]

theorem probe_dynclk_success (hdr : Header) (env : Env) (d : pynqz1_fb_device)
    (tr : List Event) (h : (probe_dynclk hdr env d tr).rc = 0) :
    (probe_dynclk hdr env d tr).fbdev =
      some { d with flags := d.flags ||| PYNQZ1_FB_FLAGS_REGISTERED } := by
  simp only [probe_dynclk, probe_vtc, probe_vdma, probe_register, RELEASE_AND_RETURN] at h ⊢
  split_ifs at h ⊢ <;> first | rfl | (simp [ENOMEM] at h)

theorem probe_resource_missing (hdr : Header) (env : Env) (k : Nat) (hp : parses env)
    (hk : resource_missing env k) :
    (pynqz1_fb_probe hdr env).rc = -ENODEV ∧
    Event.dev_err .no_memory_resource ∈ (pynqz1_fb_probe hdr env).trace := by
  obtain ⟨hkz, hw, hh⟩ := hp
  obtain ⟨hk3, hprev, hnone⟩ := hk
  obtain ⟨i, _, hrc, hdev⟩ := parse_dt_zeroed env hw hh
  simp only [NUMBER_OF_MEM_RESOURCES] at hk3
  interval_cases k
  · simp [pynqz1_fb_probe, hkz, hrc, hdev, NUMBER_OF_MEM_RESOURCES, probe_map, hnone,
      RELEASE_AND_RETURN]
  · obtain ⟨reg0, hr0⟩ := Option.isSome_iff_exists.mp (hprev 0 (by omega))
    obtain ⟨io0, g0, m0⟩ := mapped_at_some env 0 reg0 hr0
    simp [pynqz1_fb_probe, hkz, hrc, hdev, NUMBER_OF_MEM_RESOURCES, probe_map, hnone,
      RELEASE_AND_RETURN, g0, m0]
  · obtain ⟨reg0, hr0⟩ := Option.isSome_iff_exists.mp (hprev 0 (by omega))
    obtain ⟨io0, g0, m0⟩ := mapped_at_some env 0 reg0 hr0
    obtain ⟨reg1, hr1⟩ := Option.isSome_iff_exists.mp (hprev 1 (by omega))
    obtain ⟨io1, g1, m1⟩ := mapped_at_some env 1 reg1 hr1
    simp [pynqz1_fb_probe, hkz, hrc, hdev, NUMBER_OF_MEM_RESOURCES, probe_map, hnone,
      RELEASE_AND_RETURN, g0, m0, g1, m1]

/-! ## Lock and filter values -/

/-- C5 fails on the code. For the request 640 x 480, on a platform where every
step succeeds, the probe returns 0 with the record at position 0 selected,
whose multiplier is 10; event 19 is the write of the lock register and event 20
the write of the filter and lock-high register, and the values written are those
of entry `8 - 1` of the two tables (`0xbe8fa401` and `0x007300b5`), not those of
entry `10 - 1` (`0x3e8fa401` and `0x004b00e7`). -/
theorem C5_lock_values_640x480 (hdr : Header) :
    (pynqz1_fb_probe hdr (env_ok 640 480)).rc = 0 ∧
    (∃ d, (pynqz1_fb_probe hdr (env_ok 640 480)).fbdev = some d ∧ d.screen_param = some 0) ∧
    (screen_param_at 0).dynclk.multiplier = 10 ∧
    (pynqz1_fb_probe hdr (env_ok 640 480)).trace[19]? =
      some (.iowrite32 .dynclk hdr.OFST_DISPLAY_LOCK_L (u32 (lock_lookup.getD (8 - 1) 0))) ∧
    (pynqz1_fb_probe hdr (env_ok 640 480)).trace[20]? =
      some (.iowrite32 .dynclk hdr.OFST_DISPLAY_FLTR_LOCK_H
        (lock_lookup.getD (8 - 1) 0 >>> 32 |||
          (filter_lookup_low.getD (8 - 1) 0 &&& 0x3ff) <<< 16)) ∧
    u32 (lock_lookup.getD (8 - 1) 0) = 0xbe8fa401 ∧
    u32 (lock_lookup.getD (10 - 1) 0) = 0x3e8fa401 ∧
    (lock_lookup.getD (8 - 1) 0 >>> 32 |||
      (filter_lookup_low.getD (8 - 1) 0 &&& 0x3ff) <<< 16) = 0x007300b5 ∧
    (lock_lookup.getD (10 - 1) 0 >>> 32 |||
      (filter_lookup_low.getD (10 - 1) 0 &&& 0x3ff) <<< 16) = 0x004b00e7 := by
  refine ⟨rfl, ⟨_, rfl, rfl⟩, rfl, rfl, rfl, by decide, by decide, by decide, by decide⟩

/-- C6 fails on the table: the record 1280 x 1024 is before the sentinel and its
multiplier is 86, which is not within `[1, 64]`; index `86 - 1` is outside both
64-entry calibration tables. -/
theorem C6_counterexample :
    screen_param_at 4 ∈ pynqz1_fb_screen_params ∧
    (screen_param_at 4).width = 1280 ∧ (screen_param_at 4).height = 1024 ∧
    (screen_param_at 4).dynclk.multiplier = 86 ∧
    ¬ ((1 : Nat) ≤ 86 ∧ (86 : Nat) ≤ 64) ∧
    lock_lookup.length = 64 ∧ filter_lookup_low.length = 64 ∧
    lock_lookup[86 - 1]? = none ∧ filter_lookup_low[86 - 1]? = none := by
  decide

/-- C6, amended: every record before the sentinel has a multiplier `m` with
`1 ≤ m ≤ 89`; `m ≤ 64` holds exactly for the records other than 1280 x 1024
and 1920 x 1080, and for those index `m - 1` is within the bounds of both
calibration tables. -/
theorem C6_multiplier_range (r : pynqz1_fb_screen_param)
    (hr : r ∈ pynqz1_fb_screen_params) (h0 : r.width ≠ 0) :
    1 ≤ r.dynclk.multiplier ∧ r.dynclk.multiplier ≤ 89 ∧
    (r.dynclk.multiplier ≤ 64 ↔
      ¬ (r.width = 1280 ∧ r.height = 1024) ∧ ¬ (r.width = 1920 ∧ r.height = 1080)) ∧
    (r.dynclk.multiplier ≤ 64 →
      r.dynclk.multiplier - 1 < lock_lookup.length ∧
      r.dynclk.multiplier - 1 < filter_lookup_low.length) := by
  simp only [pynqz1_fb_screen_params, sentinel_param, List.mem_cons, List.mem_singleton,
    List.mem_nil_iff, or_false] at hr
  rcases hr with h | h | h | h | h | h | h <;> subst h <;> first | decide | exact absurd rfl h0

/-- C6, amended, at the record 1280 x 1024. -/
theorem C6_multiplier_range_witness :
    1 ≤ (screen_param_at 4).dynclk.multiplier ∧ (screen_param_at 4).dynclk.multiplier ≤ 89 ∧
    ¬ (screen_param_at 4).dynclk.multiplier ≤ 64 :=
  let h := C6_multiplier_range (screen_param_at 4) (by decide) (by decide)
  ⟨h.1, h.2.1, fun hle => (h.2.2.1.mp hle).1 ⟨rfl, rfl⟩⟩

/-! ## Frame-buffer size -/

/-- Masking with a run of `n` ones starting at bit `k` keeps the field there. -/
theorem and_field_mask (x k n : Nat) :
    x &&& ((2 ^ n - 1) <<< k) = ((x >>> k) % 2 ^ n) <<< k := by
  apply Nat.eq_of_testBit_eq
  intro i
  simp only [Nat.testBit_and, Nat.testBit_shiftLeft, Nat.testBit_two_pow_sub_one,
    Nat.testBit_mod_two_pow, Nat.testBit_shiftRight]
  by_cases h : k ≤ i
  · have : k + (i - k) = i := by omega
    simp [h, this, Bool.and_comm]
  · simp [h]

/-- The macro `PAGE_ALIGN` rounds up to a multiple of the page size. -/
theorem PAGE_ALIGN_eq (x : Nat) (hx : x + 4095 < U32) :
    PAGE_ALIGN x = (x + 4095) / 4096 * 4096 := by
  have hm : not32 (PAGE_SIZE - 1) = (2 ^ 20 - 1) <<< 12 := by decide
  have hu : u32 (x + (PAGE_SIZE - 1)) = x + 4095 := Nat.mod_eq_of_lt hx
  rw [PAGE_ALIGN, hm, hu, and_field_mask, Nat.shiftLeft_eq, Nat.shiftRight_eq_div_pow]
  simp only [U32] at hx
  omega

theorem GET_FB_SIZE_eq (fbdev : pynqz1_fb_device)
    (h : fbdev.width * fbdev.height * 3 + 4095 < U32) :
    GET_FB_SIZE fbdev = (fbdev.width * fbdev.height * 3 + 4095) / 4096 * 4096 := by
  have h1 : u32 (fbdev.width * fbdev.height) = fbdev.width * fbdev.height := by
    apply Nat.mod_eq_of_lt; simp only [U32] at *; omega
  have h2 : u32 (fbdev.width * fbdev.height * 3) = fbdev.width * fbdev.height * 3 := by
    apply Nat.mod_eq_of_lt; simp only [U32] at *; omega
  rw [GET_FB_SIZE, h1, BYTES_PER_PIXEL, h2, PAGE_ALIGN_eq _ h]

theorem table_size_bound (r : pynqz1_fb_screen_param) (hr : r ∈ pynqz1_fb_screen_params) :
    r.width * r.height * 3 + 4095 < U32 := by
  simp only [pynqz1_fb_screen_params, sentinel_param, List.mem_cons, List.mem_singleton,
    List.mem_nil_iff, or_false] at hr
  rcases hr with h | h | h | h | h | h | h <;> subst h <;> decide

theorem GET_FB_SIZE_congr (a b : pynqz1_fb_device) (hw : a.width = b.width)
    (hh : a.height = b.height) : GET_FB_SIZE a = GET_FB_SIZE b := by
  simp only [GET_FB_SIZE, hw, hh]

/-- C7: for every record before the sentinel, `GET_FB_SIZE` on a device of that
width and height is the least multiple of the page size that is at least
`width * height * 3`, a product that stays below `2 ^ 32`; for 1280 x 1024 it is
3932160. On every platform where the probe reaches the allocation (properties
read, three register blocks mapped), the probe resolves to a record before the
sentinel, the size passed to `dma_alloc_coherent` is `GET_FB_SIZE` for that
record, and when the probe returns 0 it is also the `smem_len` of the
registered frame buffer. -/
theorem C7_fb_size (hdr : Header) (env : Env) (r0 r1 r2 : Nat)
    (hp : parses env) (hm : maps env r0 r1 r2) :
    (∀ r ∈ pynqz1_fb_screen_params, r.width ≠ 0 → ∀ fbdev : pynqz1_fb_device,
      fbdev.width = r.width → fbdev.height = r.height →
        r.width * r.height * BYTES_PER_PIXEL < U32 ∧
        PAGE_SIZE ∣ GET_FB_SIZE fbdev ∧
        r.width * r.height * BYTES_PER_PIXEL ≤ GET_FB_SIZE fbdev ∧
        ∀ t, PAGE_SIZE ∣ t → r.width * r.height * BYTES_PER_PIXEL ≤ t → GET_FB_SIZE fbdev ≤ t) ∧
    (∀ fbdev : pynqz1_fb_device, fbdev.width = 1280 → fbdev.height = 1024 →
      GET_FB_SIZE fbdev = 3932160) ∧
    ∃ i, i < 6 ∧ (screen_param_at i).width ≠ 0 ∧
      ∀ fbdev : pynqz1_fb_device,
        fbdev.width = (screen_param_at i).width → fbdev.height = (screen_param_at i).height →
          Event.dma_alloc_coherent (GET_FB_SIZE fbdev) ∈ (pynqz1_fb_probe hdr env).trace ∧
          ((pynqz1_fb_probe hdr env).rc = 0 →
            ∃ d, (pynqz1_fb_probe hdr env).fbdev = some d ∧ d.screen_param = some i ∧
              d.width = (screen_param_at i).width ∧ d.height = (screen_param_at i).height ∧
              d.info.fix.smem_len = GET_FB_SIZE fbdev) := by
  refine ⟨?_, ?_, ?_⟩
  · intro r hr _ fbdev hw hh
    have hb := table_size_bound r hr
    have hb' : fbdev.width * fbdev.height * 3 + 4095 < U32 := by rw [hw, hh]; exact hb
    rw [GET_FB_SIZE_eq fbdev hb', hw, hh, BYTES_PER_PIXEL, PAGE_SIZE]
    simp only [U32] at hb
    refine ⟨by simp only [U32]; omega, by omega, by omega, fun t ht hle => by omega⟩
  · intro fbdev hw hh
    rw [GET_FB_SIZE_eq fbdev (by rw [hw, hh]; decide), hw, hh]
  · obtain ⟨i, hi, hprobe⟩ := probe_to_alloc hdr env r0 r1 r2 hp hm
    refine ⟨i, hi, by interval_cases i <;> decide, ?_⟩
    intro fbdev hw hh
    have hsz : GET_FB_SIZE (mapped_device env i r0 r1 r2) = GET_FB_SIZE fbdev :=
      GET_FB_SIZE_congr _ _ hw.symm hh.symm
    rw [hprobe, hsz]
    cases ha : env.dma_alloc_coherent 0 with
    | none =>
      rw [probe_alloc_none hdr env _ _ _ ha]
      exact ⟨by simp, by simp [ENOMEM]⟩
    | some vp =>
      obtain ⟨virt, phys⟩ := vp
      rw [probe_alloc_some hdr env _ virt phys _ _ rfl ha]
      obtain ⟨rest, hrest⟩ := probe_dynclk_trace hdr env
        (allocated_device (mapped_device env i r0 r1 r2) (GET_FB_SIZE fbdev) virt phys)
        (mapped_trace env r0 r1 r2 ++
          [.dma_alloc_coherent (GET_FB_SIZE fbdev), .memset_io virt (GET_FB_SIZE fbdev)])
      refine ⟨by rw [hrest]; simp, fun hrc => ?_⟩
      rw [probe_dynclk_success hdr env _ _ hrc]
      exact ⟨_, rfl, rfl, rfl, rfl, rfl⟩

/-- C7 on a platform where every step succeeds, for the request 1280 x 1024. -/
theorem C7_fb_size_witness :
    GET_FB_SIZE { zeroed_device with width := 1280, height := 1024 } = 3932160 :=
  (C7_fb_size sample_header (env_ok 1280 1024) 0xe0000000 0xe0010000 0xe0020000
    ⟨rfl, rfl, rfl⟩ ⟨rfl, rfl, rfl⟩).2.1
    { zeroed_device with width := 1280, height := 1024 } rfl rfl

/-! ## Palette -/

theorem shl32_zero (x : Nat) : shl32 x 0 = u32 x := by simp [shl32]

theorem u32_shl (x k : Nat) : shl32 x k = u32 (x <<< k) := rfl

/-- Three 8-bit channels packed at bits 16, 8 and 0. -/
theorem pack_rgb (r g b : Nat) (hg : g < 256) (hb : b < 256) :
    (r <<< 16) ||| (g <<< 8) ||| b = r * 65536 + g * 256 + b := by
  have h1 : g <<< 8 ||| b = g * 256 + b := by
    rw [Nat.lor_comm, or_shl 8 b g (by omega)]; norm_num
  have h2 : r <<< 16 ||| (g * 256 + b) = r * 65536 + (g * 256 + b) := by
    rw [Nat.lor_comm, or_shl 16 _ r (by omega)]; norm_num
  rw [Nat.lor_assoc, h1, h2]; omega

/-- C8: `pynqz1_fb_setcolreg` on a 16-entry palette. For `regno ≥ 16` it returns
`-EINVAL` and the palette is unchanged. For `regno < 16` it returns 0, entry
`regno` becomes `((red >> 8) << 16) | ((green >> 8) << 8) | (blue >> 8)` in
32-bit arithmetic, and every other entry is unchanged. For channel values up to
`0xFFFF` nothing is truncated, the stored value is below `2 ^ 24`, and red,
green and blue are bits `[16:24)`, `[8:16)` and `[0:8)`. -/
theorem C8_setcolreg (regno red green blue transp : Nat) (palette : List Nat)
    (hlen : palette.length = PALETTE_ENTRIES_NO) :
    (PALETTE_ENTRIES_NO ≤ regno →
      pynqz1_fb_setcolreg regno red green blue transp palette = (-EINVAL, palette)) ∧
    (regno < PALETTE_ENTRIES_NO →
      (pynqz1_fb_setcolreg regno red green blue transp palette).1 = 0 ∧
      (pynqz1_fb_setcolreg regno red green blue transp palette).2.length = PALETTE_ENTRIES_NO ∧
      (pynqz1_fb_setcolreg regno red green blue transp palette).2[regno]? =
        some (u32 ((red >>> 8) <<< 16) ||| u32 ((green >>> 8) <<< 8) ||| u32 (blue >>> 8)) ∧
      ∀ j, j ≠ regno →
        (pynqz1_fb_setcolreg regno red green blue transp palette).2[j]? = palette[j]?) ∧
    (red ≤ 0xFFFF → green ≤ 0xFFFF → blue ≤ 0xFFFF →
      u32 ((red >>> 8) <<< 16) ||| u32 ((green >>> 8) <<< 8) ||| u32 (blue >>> 8) =
        ((red >>> 8) <<< 16) ||| ((green >>> 8) <<< 8) ||| (blue >>> 8) ∧
      ((red >>> 8) <<< 16) ||| ((green >>> 8) <<< 8) ||| (blue >>> 8) < 2 ^ 24 ∧
      bits (((red >>> 8) <<< 16) ||| ((green >>> 8) <<< 8) ||| (blue >>> 8)) 16 24 = red >>> 8 ∧
      bits (((red >>> 8) <<< 16) ||| ((green >>> 8) <<< 8) ||| (blue >>> 8)) 8 16 = green >>> 8 ∧
      bits (((red >>> 8) <<< 16) ||| ((green >>> 8) <<< 8) ||| (blue >>> 8)) 0 8 = blue >>> 8) := by
  refine ⟨?_, ?_, ?_⟩
  · intro h
    simp [pynqz1_fb_setcolreg, h]
  · intro h
    have hn : ¬ regno ≥ PALETTE_ENTRIES_NO := by omega
    simp only [pynqz1_fb_setcolreg, hn, if_false, List.length_set, hlen, RED_SHIFT, GREEN_SHIFT,
      BLUE_SHIFT, u32_shl, Nat.shiftLeft_zero, true_and]
    refine ⟨?_, ?_⟩
    · rw [List.getElem?_set_self (by omega)]
    · intro j hj
      rw [List.getElem?_set_ne (Ne.symm hj)]
  · intro hr hg hb
    have hr8 : red >>> 8 < 256 := by rw [Nat.shiftRight_eq_div_pow]; omega
    have hg8 : green >>> 8 < 256 := by rw [Nat.shiftRight_eq_div_pow]; omega
    have hb8 : blue >>> 8 < 256 := by rw [Nat.shiftRight_eq_div_pow]; omega
    generalize red >>> 8 = r at hr8 ⊢
    generalize green >>> 8 = g at hg8 ⊢
    generalize blue >>> 8 = b at hb8 ⊢
    have e1 : u32 (r <<< 16) = r <<< 16 := by
      simp only [u32, U32, Nat.shiftLeft_eq]; omega
    have e2 : u32 (g <<< 8) = g <<< 8 := by
      simp only [u32, U32, Nat.shiftLeft_eq]; omega
    have e3 : u32 b = b := by simp only [u32, U32]; omega
    rw [e1, e2, e3, pack_rgb r g b hg8 hb8]
    simp only [bits, Nat.shiftRight_eq_div_pow]
    norm_num
    omega

/-- C8 at entry 3 of a zeroed palette. -/
theorem C8_setcolreg_witness :
    (pynqz1_fb_setcolreg 3 0xff00 0x8000 0x1200 0 (List.replicate 16 0)).2[3]? =
      some (u32 ((0xff00 >>> 8) <<< 16) ||| u32 ((0x8000 >>> 8) <<< 8) ||| u32 (0x1200 >>> 8)) :=
  ((C8_setcolreg 3 0xff00 0x8000 0x1200 0 (List.replicate 16 0) (by decide)).2.1
    (by decide)).2.2.1

/-! ## Failure paths of the probe -/

/-- C9 fails on the code. On a platform where the three register blocks are
mapped and the frame-buffer allocation fails, the probe returns `-ENOMEM`
right after the "failed to allocate" diagnostic: no mapping is released, and
`reg_dynclk`, `reg_vtc` and `reg_vdma` are still the mapped addresses. -/
theorem C9_alloc_failure_keeps_mappings (hdr : Header) :
    (pynqz1_fb_probe hdr env_alloc_fails).rc = -ENOMEM ∧
    (pynqz1_fb_probe hdr env_alloc_fails).trace =
      [.dev_info .probing, .dev_info (.select_resolution 640 480),
       .dev_info (.mapped .dynclk 0xe0000000), .dev_info (.mapped .vtc 0xe0010000),
       .dev_info (.mapped .vdma 0xe0020000), .dma_alloc_coherent 921600,
       .dev_err .failed_to_allocate] ∧
    (∀ reg, Event.devm_release_resource reg ∉ (pynqz1_fb_probe hdr env_alloc_fails).trace) ∧
    ∃ d, (pynqz1_fb_probe hdr env_alloc_fails).fbdev = some d ∧
      d.reg_dynclk = some 0xe0000000 ∧ d.reg_vtc = some 0xe0010000 ∧
      d.reg_vdma = some 0xe0020000 := by
  have ht : (pynqz1_fb_probe hdr env_alloc_fails).trace =
      [.dev_info .probing, .dev_info (.select_resolution 640 480),
       .dev_info (.mapped .dynclk 0xe0000000), .dev_info (.mapped .vtc 0xe0010000),
       .dev_info (.mapped .vdma 0xe0020000), .dma_alloc_coherent 921600,
       .dev_err .failed_to_allocate] := rfl
  refine ⟨rfl, ht, ?_, _, rfl, rfl, rfl, rfl⟩
  intro reg
  rw [ht]
  simp

/-- The sibling path: when the clock fails to start, everything is released. -/
theorem clock_start_failure_releases (hdr : Header) :
    (pynqz1_fb_probe hdr env_clock_never_starts).rc = -ENOMEM ∧
    ∃ d, (pynqz1_fb_probe hdr env_clock_never_starts).fbdev = some d ∧
      d.reg_dynclk = none ∧ d.reg_vtc = none ∧ d.reg_vdma = none ∧
      d.frame = [⟨0x1f000000, none⟩] ∧ d.flags = 0 ∧
      (pynqz1_fb_probe hdr env_clock_never_starts).trace.drop 24 =
        [.dev_err .failed_to_start_clock,
         vdma_rx_write_reg hdr hdr.VDMA_REG_CR hdr.VDMA_CR_RESET_MASK,
         vdma_tx_write_reg hdr hdr.VDMA_REG_CR hdr.VDMA_CR_RESET_MASK,
         vtc_write_reg hdr.VTC_REG_CTL hdr.VTC_CTL_RESET_MASK,
         dynclk_write_reg hdr.OFST_DISPLAY_CLK_L 0,
         .devm_release_resource 0xe0000000, .devm_release_resource 0xe0010000,
         .devm_release_resource 0xe0020000,
         .dma_free_coherent 921600 0xc1000000 0x1f000000] := by
  refine ⟨rfl, _, rfl, rfl, rfl, rfl, rfl, rfl, rfl⟩

/-- C10 fails on the code: the values returned when the allocation fails, when the
clock does not stop and when the clock does not start are the same value,
`-ENOMEM`. -/
theorem C10_counterexample :
    (pynqz1_fb_probe sample_header env_alloc_fails).rc = -ENOMEM ∧
    (pynqz1_fb_probe sample_header env_clock_never_stops).rc = -ENOMEM ∧
    (pynqz1_fb_probe sample_header env_clock_never_starts).rc = -ENOMEM ∧
    Event.dev_err .failed_to_allocate ∈ (pynqz1_fb_probe sample_header env_alloc_fails).trace ∧
    Event.dev_err .failed_to_stop_clock ∈
      (pynqz1_fb_probe sample_header env_clock_never_stops).trace ∧
    Event.dev_err .failed_to_start_clock ∈
      (pynqz1_fb_probe sample_header env_clock_never_starts).trace := by
  refine ⟨rfl, rfl, rfl, ?_, ?_, ?_⟩
  · exact List.getElem?_mem (n := 6) rfl
  · exact List.getElem?_mem (n := 10) rfl
  · exact List.getElem?_mem (n := 24) rfl

/-- C10, amended: once the properties are read, the probe returns `-ENODEV` when a
register resource is missing, and `-ENOMEM` in each of the three cases
allocation failure, clock still running after the stop command, clock not
running after the start command. `-ENOMEM` differs from `-ENODEV`; the three
`-ENOMEM` cases differ only by the diagnostic printed. -/
theorem C10_error_values (hdr : Header) (env : Env) (hp : parses env) :
    (∀ k, resource_missing env k →
      (pynqz1_fb_probe hdr env).rc = -ENODEV ∧
      Event.dev_err .no_memory_resource ∈ (pynqz1_fb_probe hdr env).trace) ∧
    (∀ r0 r1 r2, maps env r0 r1 r2 →
      (env.dma_alloc_coherent 0 = none →
        (pynqz1_fb_probe hdr env).rc = -ENOMEM ∧
        Event.dev_err .failed_to_allocate ∈ (pynqz1_fb_probe hdr env).trace) ∧
      (env.dma_alloc_coherent 0 ≠ none →
        u32 env.status_after_stop &&& (1 <<< BIT_CLOCK_RUNNING) ≠ 0 →
        (pynqz1_fb_probe hdr env).rc = -ENOMEM ∧
        Event.dev_err .failed_to_stop_clock ∈ (pynqz1_fb_probe hdr env).trace) ∧
      (env.dma_alloc_coherent 0 ≠ none →
        u32 env.status_after_stop &&& (1 <<< BIT_CLOCK_RUNNING) = 0 →
        u32 env.status_after_start &&& (1 <<< BIT_CLOCK_RUNNING) = 0 →
        (pynqz1_fb_probe hdr env).rc = -ENOMEM ∧
        Event.dev_err .failed_to_start_clock ∈ (pynqz1_fb_probe hdr env).trace)) ∧
    -ENOMEM ≠ -ENODEV := by
  refine ⟨fun k hk => probe_resource_missing hdr env k hp hk, ?_, by decide⟩
  intro r0 r1 r2 hm
  obtain ⟨i, _, hprobe⟩ := probe_to_alloc hdr env r0 r1 r2 hp hm
  rw [hprobe]
  refine ⟨?_, ?_, ?_⟩
  · intro ha
    rw [probe_alloc_none hdr env _ _ _ ha]
    exact ⟨rfl, by simp⟩
  · intro ha hs
    obtain ⟨⟨virt, phys⟩, hvp⟩ := Option.ne_none_iff_exists'.mp ha
    rw [probe_alloc_some hdr env _ virt phys _ _ rfl hvp]
    exact probe_dynclk_stop_fails hdr env _ _ hs
  · intro ha hs hs'
    obtain ⟨⟨virt, phys⟩, hvp⟩ := Option.ne_none_iff_exists'.mp ha
    rw [probe_alloc_some hdr env _ virt phys _ _ rfl hvp]
    exact probe_dynclk_start_fails hdr env _ _ hs hs'

/-- C10, amended, on a platform whose clock never reports running. -/
theorem C10_error_values_witness :
    (pynqz1_fb_probe sample_header env_clock_never_starts).rc = -ENOMEM ∧
    Event.dev_err .failed_to_start_clock ∈
      (pynqz1_fb_probe sample_header env_clock_never_starts).trace :=
  ((C10_error_values sample_header env_clock_never_starts ⟨rfl, rfl, rfl⟩).2.1
    0xe0000000 0xe0010000 0xe0020000 ⟨rfl, rfl, rfl⟩).2.2
    (by decide) (by decide) (by decide)

/-! ## Error codes returned by the probe -/

theorem probe_dynclk_running (hdr : Header) (env : Env) (d : pynqz1_fb_device)
    (tr : List Event) (hc : clock_ok env) :
    probe_dynclk hdr env d tr = probe_register hdr env d (tr ++ bringup_trace hdr env d) := by
  obtain ⟨h1, h2⟩ := hc
  simp [probe_dynclk, probe_vtc, probe_vdma, h1, h2, bringup_trace, clock_sequence]

theorem probe_dynclk_rc_zero (hdr : Header) (env : Env) (d : pynqz1_fb_device)
    (tr : List Event) (h : (probe_dynclk hdr env d tr).rc = 0) :
    clock_ok env ∧ env.register_framebuffer = 0 := by
  simp only [probe_dynclk, probe_vtc, probe_vdma, probe_register, RELEASE_AND_RETURN] at h
  split_ifs at h with h1 h2 h3
  · simp [ENOMEM] at h
  · simp [ENOMEM] at h
  · simp at h
  · exact ⟨⟨not_not.mp h1, h2⟩, not_not.mp h3⟩

theorem probe_register_ok (hdr : Header) (env : Env) (d : pynqz1_fb_device)
    (tr : List Event) (h : env.register_framebuffer = 0) :
    probe_register hdr env d tr =
      ⟨0, some { d with flags := d.flags ||| PYNQZ1_FB_FLAGS_REGISTERED },
        tr ++ [.register_framebuffer, .dev_info .probed]⟩ := by
  simp [probe_register, h]

theorem probe_register_fails (hdr : Header) (env : Env) (d : pynqz1_fb_device)
    (tr : List Event) (h : env.register_framebuffer ≠ 0) :
    probe_register hdr env d tr =
      RELEASE_AND_RETURN hdr 1 d
        (tr ++ [.register_framebuffer, .dev_err .could_not_register]) := by
  simp [probe_register, h]

theorem probe_to_alloc_at (hdr : Header) (env : Env) (i r0 r1 r2 : Nat)
    (hk : env.devm_kzalloc = true) (hrc : (pynqz1_fb_parse_dt env zeroed_device).rc = 0)
    (hdev : (pynqz1_fb_parse_dt env zeroed_device).fbdev = some (parsed_device env i))
    (hm : maps env r0 r1 r2) :
    pynqz1_fb_probe hdr env =
      probe_alloc hdr env (GET_FB_SIZE (mapped_device env i r0 r1 r2)) FB_NUMBER_OF_FRAMES 0
        (mapped_device env i r0 r1 r2) (mapped_trace env r0 r1 r2) := by
  obtain ⟨h0, h1, h2⟩ := hm
  obtain ⟨io0, g0, m0⟩ := mapped_at_some env 0 r0 h0
  obtain ⟨io1, g1, m1⟩ := mapped_at_some env 1 r1 h1
  obtain ⟨io2, g2, m2⟩ := mapped_at_some env 2 r2 h2
  simp only [pynqz1_fb_probe, hk, hrc, hdev, NUMBER_OF_MEM_RESOURCES, probe_map, g0, m0, g1, m1,
    g2, m2]
  simp [mapped_device, GET_FB_SIZE, mapped_trace]

/-- The whole probe when it returns 0 after resolving to the record at position `i`. -/
theorem probe_success_at (hdr : Header) (env : Env) (i r0 r1 r2 : Nat)
    (hk : env.devm_kzalloc = true) (hprc : (pynqz1_fb_parse_dt env zeroed_device).rc = 0)
    (hdev : (pynqz1_fb_parse_dt env zeroed_device).fbdev = some (parsed_device env i))
    (hm : maps env r0 r1 r2) (hrc : (pynqz1_fb_probe hdr env).rc = 0) :
    ∃ virt phys, env.dma_alloc_coherent 0 = some (virt, phys) ∧
      pynqz1_fb_probe hdr env =
        ⟨0,
         some { allocated_device (mapped_device env i r0 r1 r2)
                  (GET_FB_SIZE (mapped_device env i r0 r1 r2)) virt phys with
                flags := PYNQZ1_FB_FLAGS_REGISTERED },
         mapped_trace env r0 r1 r2 ++
           [.dma_alloc_coherent (GET_FB_SIZE (mapped_device env i r0 r1 r2)),
            .memset_io virt (GET_FB_SIZE (mapped_device env i r0 r1 r2))] ++
           bringup_trace hdr env (allocated_device (mapped_device env i r0 r1 r2)
             (GET_FB_SIZE (mapped_device env i r0 r1 r2)) virt phys) ++
           [.register_framebuffer, .dev_info .probed]⟩ := by
  have hprobe := probe_to_alloc_at hdr env i r0 r1 r2 hk hprc hdev hm
  rw [hprobe] at hrc ⊢
  cases ha : env.dma_alloc_coherent 0 with
  | none =>
    rw [probe_alloc_none hdr env _ _ _ ha] at hrc
    simp [ENOMEM] at hrc
  | some vp =>
    obtain ⟨virt, phys⟩ := vp
    rw [probe_alloc_some hdr env _ virt phys _ _ rfl ha] at hrc ⊢
    obtain ⟨hc, hr⟩ := probe_dynclk_rc_zero hdr env _ _ hrc
    refine ⟨virt, phys, rfl, ?_⟩
    rw [probe_dynclk_running hdr env _ _ hc, probe_register_ok hdr env _ _ hr]
    simp [allocated_device, probe_init_info, mapped_device, parsed_device, zeroed_device,
      PYNQZ1_FB_FLAGS_REGISTERED]

theorem probe_parse_fails (hdr : Header) (env : Env) (hk : env.devm_kzalloc = true) :
    (env.of_width.ret ≠ 0 → (pynqz1_fb_probe hdr env).rc = env.of_width.ret) ∧
    (env.of_width.ret = 0 → env.of_height.ret ≠ 0 →
      (pynqz1_fb_probe hdr env).rc = env.of_height.ret) := by
  constructor
  · intro h
    simp [pynqz1_fb_probe, hk, pynqz1_fb_parse_dt, h]
  · intro h h'
    simp [pynqz1_fb_probe, hk, pynqz1_fb_parse_dt, h, h']

theorem probe_mapping_fails (hdr : Header) (env : Env) (k : Nat) (err : Int) (hp : parses env)
    (hk : mapping_fails env k err) :
    (pynqz1_fb_probe hdr env).rc = err ∧
    Event.dev_err .failed_to_map ∈ (pynqz1_fb_probe hdr env).trace := by
  obtain ⟨hkz, hw, hh⟩ := hp
  obtain ⟨hk3, hprev, hfail⟩ := hk
  obtain ⟨i, _, hrc, hdev⟩ := parse_dt_zeroed env hw hh
  obtain ⟨io, hio, hmap⟩ : ∃ io, env.platform_get_resource k = some io ∧
      env.devm_ioremap_resource io = .error err := by
    unfold mapping_error at hfail
    cases hg : env.platform_get_resource k with
    | none => simp [hg] at hfail
    | some io =>
      cases hm : env.devm_ioremap_resource io with
      | ok reg => simp [hg, hm] at hfail
      | error e => simp [hg, hm] at hfail; exact ⟨io, rfl, by rw [hm, hfail]⟩
  simp only [NUMBER_OF_MEM_RESOURCES] at hk3
  interval_cases k
  · simp [pynqz1_fb_probe, hkz, hrc, hdev, NUMBER_OF_MEM_RESOURCES, probe_map, hio, hmap,
      RELEASE_AND_RETURN]
  · obtain ⟨reg0, hr0⟩ := Option.isSome_iff_exists.mp (hprev 0 (by omega))
    obtain ⟨io0, g0, m0⟩ := mapped_at_some env 0 reg0 hr0
    simp [pynqz1_fb_probe, hkz, hrc, hdev, NUMBER_OF_MEM_RESOURCES, probe_map, hio, hmap,
      RELEASE_AND_RETURN, g0, m0]
  · obtain ⟨reg0, hr0⟩ := Option.isSome_iff_exists.mp (hprev 0 (by omega))
    obtain ⟨io0, g0, m0⟩ := mapped_at_some env 0 reg0 hr0
    obtain ⟨reg1, hr1⟩ := Option.isSome_iff_exists.mp (hprev 1 (by omega))
    obtain ⟨io1, g1, m1⟩ := mapped_at_some env 1 reg1 hr1
    simp [pynqz1_fb_probe, hkz, hrc, hdev, NUMBER_OF_MEM_RESOURCES, probe_map, hio, hmap,
      RELEASE_AND_RETURN, g0, m0, g1, m1]

theorem probe_registration_fails (hdr : Header) (env : Env) (r0 r1 r2 : Nat)
    (hp : parses env) (hm : maps env r0 r1 r2) (ha : env.dma_alloc_coherent 0 ≠ none)
    (hc : clock_ok env) (hr : env.register_framebuffer ≠ 0) :
    (pynqz1_fb_probe hdr env).rc = 1 ∧
    Event.dev_err .could_not_register ∈ (pynqz1_fb_probe hdr env).trace := by
  obtain ⟨i, _, hprobe⟩ := probe_to_alloc hdr env r0 r1 r2 hp hm
  obtain ⟨⟨virt, phys⟩, hvp⟩ := Option.ne_none_iff_exists'.mp ha
  rw [hprobe, probe_alloc_some hdr env _ virt phys _ _ rfl hvp, probe_dynclk_running hdr env _ _ hc,
    probe_register_fails hdr env _ _ hr]
  simp [RELEASE_AND_RETURN]

/-- C11, as the code behaves: once the device structure is allocated, a failed
read of the width or height property makes the probe return the code of that
read, and a failed mapping makes it return the error of the mapping
(`PTR_ERR`); but when every earlier step succeeds and `register_framebuffer`
reports a non-zero code, the probe prints "could not register" and returns 1,
whatever that code is. -/
theorem C11_error_propagation (hdr : Header) (env : Env) (hk : env.devm_kzalloc = true) :
    (env.of_width.ret ≠ 0 → (pynqz1_fb_probe hdr env).rc = env.of_width.ret) ∧
    (env.of_width.ret = 0 → env.of_height.ret ≠ 0 →
      (pynqz1_fb_probe hdr env).rc = env.of_height.ret) ∧
    (parses env → ∀ k err, mapping_fails env k err → (pynqz1_fb_probe hdr env).rc = err) ∧
    (parses env → ∀ r0 r1 r2, maps env r0 r1 r2 → env.dma_alloc_coherent 0 ≠ none →
      clock_ok env → env.register_framebuffer ≠ 0 →
      (pynqz1_fb_probe hdr env).rc = 1 ∧
      Event.dev_err .could_not_register ∈ (pynqz1_fb_probe hdr env).trace) :=
  ⟨(probe_parse_fails hdr env hk).1, (probe_parse_fails hdr env hk).2,
   fun hp k err hf => (probe_mapping_fails hdr env k err hp hf).1,
   fun hp r0 r1 r2 hm ha hc hr => probe_registration_fails hdr env r0 r1 r2 hp hm ha hc hr⟩

/-- C11 on a platform whose `register_framebuffer` fails with `-EINVAL` (-22): the
probe returns 1. -/
theorem C11_error_propagation_witness :
    env_register_fails.register_framebuffer = -22 ∧
    (pynqz1_fb_probe sample_header env_register_fails).rc = 1 ∧
    Event.dev_err .could_not_register ∈ (pynqz1_fb_probe sample_header env_register_fails).trace :=
  ⟨rfl, (C11_error_propagation sample_header env_register_fails rfl).2.2.2 ⟨rfl, rfl, rfl⟩
    0xe0000000 0xe0010000 0xe0020000 ⟨rfl, rfl, rfl⟩ (by decide) (by decide) (by decide)⟩

/-! ## Release -/

/-- After the frame loop of the release every `virt` is `NULL`. -/
theorem release_frames_virt (size : Nat) (fs : List pynqz1_frame) :
    ∀ f ∈ (release_frames size fs).1, f.virt = none := by
  induction fs with
  | nil => simp [release_frames]
  | cons f rest ih =>
    cases hv : f.virt with
    | none =>
      simp only [release_frames, hv, List.mem_cons]
      rintro g (rfl | hg)
      · exact hv
      · exact ih g hg
    | some v =>
      simp only [release_frames, hv, List.mem_cons]
      rintro g (rfl | hg)
      · rfl
      · exact ih g hg

/-- The frame loop of the release does nothing when every `virt` is `NULL`. -/
theorem release_frames_of_virt_none (size : Nat) (fs : List pynqz1_frame)
    (h : ∀ f ∈ fs, f.virt = none) : release_frames size fs = (fs, []) := by
  induction fs with
  | nil => rfl
  | cons f rest ih =>
    have hf : f.virt = none := h f (List.mem_cons_self _ _)
    have hr := ih (fun g hg => h g (List.mem_cons_of_mem _ hg))
    simp [release_frames, hf, hr]

/-- Clearing the registered flag clears it. -/
theorem flag_cleared (flags : Nat) :
    (flags &&& not32 PYNQZ1_FB_FLAGS_REGISTERED) &&& PYNQZ1_FB_FLAGS_REGISTERED = 0 := by
  rw [Nat.land_assoc]
  have : not32 PYNQZ1_FB_FLAGS_REGISTERED &&& PYNQZ1_FB_FLAGS_REGISTERED = 0 := by decide
  rw [this, Nat.and_zero]

/-- What one run of the release leaves behind. -/
theorem release_state (hdr : Header) (s : pynqz1_fb_device) :
    ∃ d, (pynqz1_fb_release hdr (some s)).1 = some d ∧
      d.reg_dynclk = none ∧ d.reg_vtc = none ∧ d.reg_vdma = none ∧
      (∀ f ∈ d.frame, f.virt = none) ∧
      d.flags &&& PYNQZ1_FB_FLAGS_REGISTERED = 0 := by
  refine ⟨_, rfl, ?_, ?_, ?_, ?_, ?_⟩
  · simp only [pynqz1_fb_release, RELEASE_REG_RESOURCE]; split <;> rfl
  · simp only [pynqz1_fb_release, RELEASE_REG_RESOURCE]; split <;> rfl
  · simp only [pynqz1_fb_release, RELEASE_REG_RESOURCE]; split <;> rfl
  · exact release_frames_virt _ _
  · simp only [pynqz1_fb_release]
    split_ifs with h
    · exact flag_cleared _
    · simpa using h

/-- The release does nothing on a device with nothing acquired. -/
theorem release_of_released (hdr : Header) (d : pynqz1_fb_device)
    (h1 : d.reg_dynclk = none) (h2 : d.reg_vtc = none) (h3 : d.reg_vdma = none)
    (h4 : ∀ f ∈ d.frame, f.virt = none) (h5 : d.flags &&& PYNQZ1_FB_FLAGS_REGISTERED = 0) :
    pynqz1_fb_release hdr (some d) = (some d, []) := by
  obtain ⟨info, r1, r2, r3, frame, pal, w, h, st, dbg, fl, sp⟩ := d
  simp only at h1 h2 h3 h4 h5
  subst h1 h2 h3
  simp [pynqz1_fb_release, RELEASE_REG_RESOURCE, h5, release_frames_of_virt_none _ _ h4]

/-- C12: for every device state `s` (a device in any state, or no device at all),
running `pynqz1_fb_release` on what one run leaves gives the same state again
and issues no event at all: no register write, no unregister, no mapping
release, no buffer free. One run leaves no device only when there was none;
otherwise it leaves `reg_dynclk`, `reg_vtc` and `reg_vdma` `NULL`, the `virt`
of every frame `NULL` and the registered flag clear. -/
theorem C12_release_idempotent (hdr : Header) (s : Option pynqz1_fb_device) :
    pynqz1_fb_release hdr (pynqz1_fb_release hdr s).1 = ((pynqz1_fb_release hdr s).1, []) ∧
    ((pynqz1_fb_release hdr s).1 = none ↔ s = none) ∧
    ∀ d, (pynqz1_fb_release hdr s).1 = some d →
      d.reg_dynclk = none ∧ d.reg_vtc = none ∧ d.reg_vdma = none ∧
      (∀ f ∈ d.frame, f.virt = none) ∧
      d.flags &&& PYNQZ1_FB_FLAGS_REGISTERED = 0 := by
  cases s with
  | none => exact ⟨rfl, by simp [pynqz1_fb_release], fun d h => by simp [pynqz1_fb_release] at h⟩
  | some s =>
    obtain ⟨d, hd, h1, h2, h3, h4, h5⟩ := release_state hdr s
    refine ⟨?_, by simp [hd], ?_⟩
    · rw [hd]
      exact release_of_released hdr d h1 h2 h3 h4 h5
    · intro d' hd'
      rw [hd] at hd'
      cases hd'
      exact ⟨h1, h2, h3, h4, h5⟩

/-- The release of the device left by a successful probe: the frame buffer is
unregistered, the three blocks are reset or stopped, the three mappings are
released and the frame buffer is freed. -/
theorem release_after_probe (hdr : Header) :
    (pynqz1_fb_release hdr (pynqz1_fb_probe hdr (env_ok 640 480)).fbdev).2 =
      [.unregister_framebuffer,
       vdma_rx_write_reg hdr hdr.VDMA_REG_CR hdr.VDMA_CR_RESET_MASK,
       vdma_tx_write_reg hdr hdr.VDMA_REG_CR hdr.VDMA_CR_RESET_MASK,
       vtc_write_reg hdr.VTC_REG_CTL hdr.VTC_CTL_RESET_MASK,
       dynclk_write_reg hdr.OFST_DISPLAY_CLK_L 0,
       .devm_release_resource 0xe0000000, .devm_release_resource 0xe0010000,
       .devm_release_resource 0xe0020000,
       .dma_free_coherent 921600 0xc1000000 0x1f000000] := rfl

/-- C12 on the device left by a successful probe for 640 x 480. -/
theorem C12_release_idempotent_witness :
    pynqz1_fb_release sample_header
        (pynqz1_fb_release sample_header
          (pynqz1_fb_probe sample_header (env_ok 640 480)).fbdev).1 =
      ((pynqz1_fb_release sample_header
          (pynqz1_fb_probe sample_header (env_ok 640 480)).fbdev).1, []) :=
  (C12_release_idempotent sample_header (pynqz1_fb_probe sample_header (env_ok 640 480)).fbdev).1

/-! ## End to end for 640 x 480 -/

theorem parse_dt_640x480 (env : Env) (hwr : env.of_width.ret = 0) (hhr : env.of_height.ret = 0)
    (hw : env.of_width.value = 640) (hh : env.of_height.value = 480) :
    (pynqz1_fb_parse_dt env zeroed_device).rc = 0 ∧
    (pynqz1_fb_parse_dt env zeroed_device).fbdev = some (parsed_device env 0) ∧
    (pynqz1_fb_parse_dt env zeroed_device).trace = [.dev_info (.select_resolution 640 480)] := by
  have h1 : u32 640 = 640 := by decide
  have h2 : u32 480 = 480 := by decide
  have h3 : scan_screen_params 640 480 pynqz1_fb_screen_params 0 = 0 := by decide
  have h4 : ((screen_param_at 0).width == 0) = false := by decide
  simp only [pynqz1_fb_parse_dt, parse_dt_finish, hwr, hhr, hw, hh, h1, h2, h3, h4, ne_eq,
    not_true_eq_false, if_false, parsed_device, Bool.false_eq_true]
  split_ifs <;> simp [zeroed_device] <;> exact ⟨rfl, rfl⟩

theorem divider_one (w : Nat) : dynclk_calculate_divider w 1 = 0x1041 := rfl

theorem divider_config_one (w : Nat) : dynclk_calculate_divider_config w 1 = 0x00400041 := by
  rw [dynclk_calculate_divider_config]
  simp only [divider_one]
  decide

/-- No diagnostic about an unsupported resolution is printed after the parse. -/
theorem not_supported_not_mem_bringup (hdr : Header) (env : Env) (d : pynqz1_fb_device)
    (w h : Nat) : Event.dev_info (.not_supported w h) ∉ bringup_trace hdr env d := by
  simp [bringup_trace, clock_sequence, vtc_sequence, vdma_sequence, dynclk_write_reg,
    dynclk_read_reg, vtc_write_reg, vtc_read_reg, vdma_write_reg, vdma_read_reg,
    vdma_tx_write_reg, vdma_tx_read_reg, vdma_rx_write_reg]

/-- C13: on every platform where the request is 640 x 480, the three register
blocks are mapped and the probe returns 0: the lookup selects the record at
position 0, which has `hFrameSize = 800` and clock ratio `{1, 10, 8}`, with the
"select" notice and no "not supported" notice; the clock-low register is
written with `dynclk_calculate_divider_config(1) = 0x00400041`, the repacking
of `dynclk_calculate_divider(1) = 0x1041`; the device is registered with
stride and `line_length` `640 * 3 = 1920` and `smem_len` the page-aligned value
of `640 * 480 * 3`, which is 921600. -/
theorem C13_end_to_end_640x480 (hdr : Header) (env : Env) (r0 r1 r2 : Nat)
    (hp : parses env) (hw : env.of_width.value = 640) (hh : env.of_height.value = 480)
    (hm : maps env r0 r1 r2) (hrc : (pynqz1_fb_probe hdr env).rc = 0) :
    screen_param_at 0 = ⟨640, 480, 800, 656, 752, 525, 489, 491, ⟨1, 10, 8, 0⟩⟩ ∧
    Event.dev_info (.select_resolution 640 480) ∈ (pynqz1_fb_probe hdr env).trace ∧
    (∀ w h, Event.dev_info (.not_supported w h) ∉ (pynqz1_fb_probe hdr env).trace) ∧
    dynclk_calculate_divider hdr.CLK_BIT_WEDGE 1 = 0x1041 ∧
    dynclk_calculate_divider_config hdr.CLK_BIT_WEDGE 1 = 0x00400041 ∧
    Event.iowrite32 .dynclk hdr.OFST_DISPLAY_CLK_L
      (dynclk_calculate_divider_config hdr.CLK_BIT_WEDGE 1) ∈ (pynqz1_fb_probe hdr env).trace ∧
    ∃ d, (pynqz1_fb_probe hdr env).fbdev = some d ∧
      d.screen_param = some 0 ∧ d.width = 640 ∧ d.height = 480 ∧
      d.flags &&& PYNQZ1_FB_FLAGS_REGISTERED ≠ 0 ∧
      d.stride = 640 * 3 ∧ d.info.fix.line_length = 1920 ∧
      d.info.fix.smem_len = PAGE_ALIGN (640 * 480 * 3) ∧
      PAGE_ALIGN (640 * 480 * 3) = 921600 := by
  obtain ⟨hk, hwr, hhr⟩ := hp
  obtain ⟨hprc, hdev, htr⟩ := parse_dt_640x480 env hwr hhr hw hh
  obtain ⟨virt, phys, _, hprobe⟩ := probe_success_at hdr env 0 r0 r1 r2 hk hprc hdev hm hrc
  rw [hprobe]
  have hflag : PYNQZ1_FB_FLAGS_REGISTERED &&& PYNQZ1_FB_FLAGS_REGISTERED ≠ 0 := by decide
  have hpage : PAGE_ALIGN (640 * 480 * 3) = 921600 := by
    rw [PAGE_ALIGN_eq _ (by simp only [U32]; omega)]
  refine ⟨rfl, ?_, ?_, divider_one hdr.CLK_BIT_WEDGE,
    divider_config_one hdr.CLK_BIT_WEDGE, ?_, _, rfl, ?_, ?_, ?_, ?_, ?_, ?_, ?_, hpage⟩
  rotate_right 7
  · rfl
  · rfl
  · rfl
  · exact hflag
  · show u32 ((screen_param_at 0).width * BYTES_PER_PIXEL) = 640 * 3
    decide
  · show u32 ((screen_param_at 0).width * BYTES_PER_PIXEL) = 1920
    decide
  · show GET_FB_SIZE (mapped_device env 0 r0 r1 r2) = PAGE_ALIGN (640 * 480 * 3)
    rw [hpage, GET_FB_SIZE_eq _ (by show 640 * 480 * 3 + 4095 < U32; decide)]
    show (640 * 480 * 3 + 4095) / 4096 * 4096 = 921600
    decide
  · simp [mapped_trace, htr]
  · intro w h
    have hb := not_supported_not_mem_bringup hdr env
      (allocated_device (mapped_device env 0 r0 r1 r2)
        (GET_FB_SIZE (mapped_device env 0 r0 r1 r2)) virt phys) w h
    simp [mapped_trace, htr, hb]
  · have : Event.iowrite32 .dynclk hdr.OFST_DISPLAY_CLK_L
        (dynclk_calculate_divider_config hdr.CLK_BIT_WEDGE 1) ∈
        bringup_trace hdr env (allocated_device (mapped_device env 0 r0 r1 r2)
          (GET_FB_SIZE (mapped_device env 0 r0 r1 r2)) virt phys) :=
      List.getElem?_mem (n := 8) rfl
    simp [this]

/-- C13 on a platform where every step succeeds. -/
theorem C13_end_to_end_640x480_witness :
    Event.iowrite32 .dynclk sample_header.OFST_DISPLAY_CLK_L
      (dynclk_calculate_divider_config sample_header.CLK_BIT_WEDGE 1) ∈
      (pynqz1_fb_probe sample_header (env_ok 640 480)).trace ∧
    ∃ d, (pynqz1_fb_probe sample_header (env_ok 640 480)).fbdev = some d ∧
      d.screen_param = some 0 ∧ d.width = 640 ∧ d.height = 480 ∧
      d.flags &&& PYNQZ1_FB_FLAGS_REGISTERED ≠ 0 ∧
      d.stride = 640 * 3 ∧ d.info.fix.line_length = 1920 ∧
      d.info.fix.smem_len = PAGE_ALIGN (640 * 480 * 3) ∧
      PAGE_ALIGN (640 * 480 * 3) = 921600 :=
  (C13_end_to_end_640x480 sample_header (env_ok 640 480) 0xe0000000 0xe0010000 0xe0020000
    ⟨rfl, rfl, rfl⟩ rfl rfl ⟨rfl, rfl, rfl⟩ rfl).2.2.2.2.2

/-! ## Order of the writes to the DMA engine -/

theorem vdma_writes_append (a b : List Event) :
    vdma_writes (a ++ b) = vdma_writes a ++ vdma_writes b := by
  simp [vdma_writes, List.filterMap_append]

theorem vdma_writes_parse (env : Env) (d : pynqz1_fb_device) :
    vdma_writes (pynqz1_fb_parse_dt env d).trace = [] := by
  simp only [pynqz1_fb_parse_dt, parse_dt_finish]
  split_ifs <;> rfl

theorem vdma_writes_mapped (env : Env) (r0 r1 r2 : Nat) :
    vdma_writes (mapped_trace env r0 r1 r2) = [] := by
  simp only [mapped_trace, vdma_writes_append, vdma_writes_parse]
  rfl

theorem vdma_writes_clock (hdr : Header) (d : pynqz1_fb_device) :
    vdma_writes (clock_sequence hdr d) = [] := rfl

theorem vdma_writes_vtc (hdr : Header) (env : Env) (d : pynqz1_fb_device) :
    vdma_writes (vtc_sequence hdr env d) = [] := rfl

/-- The writes of the block `Initialize VDMA`, in order. -/
theorem vdma_writes_vdma (hdr : Header) (env : Env) (d : pynqz1_fb_device) :
    vdma_writes (vdma_sequence hdr env d) =
      [(hdr.VDMA_REG_CR + hdr.VDMA_REG_RX, hdr.VDMA_CR_RESET_MASK),
       (hdr.VDMA_REG_CR + hdr.VDMA_REG_TX, hdr.VDMA_CR_RESET_MASK),
       (hdr.VDMA_REG_CR + hdr.VDMA_REG_TX, 0),
       (hdr.VDMA_REG_MM2S_ADDR + hdr.VDMA_REG_HSIZE, u32 (d.width * BYTES_PER_PIXEL)),
       (hdr.VDMA_REG_MM2S_ADDR + hdr.VDMA_REG_STRD_FRMDLY,
         d.stride ||| shl32 0 hdr.VDMA_FRMDLY_SHIFT),
       (hdr.VDMA_REG_MM2S_ADDR + hdr.VDMA_REG_START_ADDR + 0 * hdr.VDMA_START_ADDR_LEN,
         (d.frame.getD 0 ⟨0, none⟩).phys),
       (hdr.VDMA_REG_CR + hdr.VDMA_REG_TX,
         u32 env.vdma_tx_cr_first ||| hdr.VDMA_CR_RUNSTOP_MASK),
       (hdr.VDMA_REG_MM2S_ADDR + hdr.VDMA_REG_VSIZE, d.height),
       (hdr.VDMA_REG_PARKPTR,
         u32 env.vdma_parkptr &&& not32 hdr.VDMA_PARKPTR_READREF_MASK),
       (hdr.VDMA_REG_CR + hdr.VDMA_REG_TX,
         u32 env.vdma_tx_cr_second &&& not32 hdr.VDMA_CR_TAIL_EN_MASK)] := rfl

/-- C14 fails on the code: on a platform where every step succeeds, for 640 x 480,
the DMA engine receives ten writes; the frame count (offset `0x50`, value 480)
is the eighth, followed by the park pointer (offset `0x28`) and the transmit
control (offset `0x00`), so the last write is not the frame count. -/
theorem C14_counterexample :
    (pynqz1_fb_probe sample_header (env_ok 640 480)).rc = 0 ∧
    vdma_writes (pynqz1_fb_probe sample_header (env_ok 640 480)).trace =
      [(0x30, 4), (0x00, 4), (0x00, 0), (0x54, 1920), (0x58, 1920), (0x5c, 0x1f000000),
       (0x00, 1), (0x50, 480), (0x28, 0), (0x00, 0)] ∧
    sample_header.VDMA_REG_MM2S_ADDR + sample_header.VDMA_REG_VSIZE = 0x50 ∧
    (vdma_writes (pynqz1_fb_probe sample_header (env_ok 640 480)).trace).getLast? ≠
      some (0x50, 480) := by
  refine ⟨rfl, rfl, rfl, ?_⟩
  have h : vdma_writes (pynqz1_fb_probe sample_header (env_ok 640 480)).trace =
      [(0x30, 4), (0x00, 4), (0x00, 0), (0x54, 1920), (0x58, 1920), (0x5c, 0x1f000000),
       (0x00, 1), (0x50, 480), (0x28, 0), (0x00, 0)] := rfl
  rw [h]
  decide

/-- C14, amended: on every platform where the probe returns 0, the writes to the
DMA engine are, in order: reset of the receive channel, reset of the transmit
channel, transmit control 0, horizontal size, stride, the start address of the
one frame buffer, transmit control with the run bit, the frame count
(`VSIZE = height`), and then two more: the park pointer and the transmit
control with the tail-enable bit cleared. The frame count is written after
the horizontal size, the stride and every start address; it is not the last
write. -/
theorem C14_vdma_write_order (hdr : Header) (env : Env) (r0 r1 r2 : Nat)
    (hp : parses env) (hm : maps env r0 r1 r2) (hrc : (pynqz1_fb_probe hdr env).rc = 0) :
    ∃ d, (pynqz1_fb_probe hdr env).fbdev = some d ∧
      vdma_writes (pynqz1_fb_probe hdr env).trace =
        [(hdr.VDMA_REG_CR + hdr.VDMA_REG_RX, hdr.VDMA_CR_RESET_MASK),
         (hdr.VDMA_REG_CR + hdr.VDMA_REG_TX, hdr.VDMA_CR_RESET_MASK),
         (hdr.VDMA_REG_CR + hdr.VDMA_REG_TX, 0),
         (hdr.VDMA_REG_MM2S_ADDR + hdr.VDMA_REG_HSIZE, u32 (d.width * BYTES_PER_PIXEL)),
         (hdr.VDMA_REG_MM2S_ADDR + hdr.VDMA_REG_STRD_FRMDLY,
           d.stride ||| shl32 0 hdr.VDMA_FRMDLY_SHIFT),
         (hdr.VDMA_REG_MM2S_ADDR + hdr.VDMA_REG_START_ADDR + 0 * hdr.VDMA_START_ADDR_LEN,
           (d.frame.getD 0 ⟨0, none⟩).phys),
         (hdr.VDMA_REG_CR + hdr.VDMA_REG_TX,
           u32 env.vdma_tx_cr_first ||| hdr.VDMA_CR_RUNSTOP_MASK),
         (hdr.VDMA_REG_MM2S_ADDR + hdr.VDMA_REG_VSIZE, d.height),
         (hdr.VDMA_REG_PARKPTR,
           u32 env.vdma_parkptr &&& not32 hdr.VDMA_PARKPTR_READREF_MASK),
         (hdr.VDMA_REG_CR + hdr.VDMA_REG_TX,
           u32 env.vdma_tx_cr_second &&& not32 hdr.VDMA_CR_TAIL_EN_MASK)] ∧
      d.frame.length = FB_NUMBER_OF_FRAMES := by
  obtain ⟨hk, hw, hh⟩ := hp
  obtain ⟨i, _, hprc, hdev⟩ := parse_dt_zeroed env hw hh
  obtain ⟨virt, phys, _, hprobe⟩ := probe_success_at hdr env i r0 r1 r2 hk hprc hdev hm hrc
  rw [hprobe]
  refine ⟨_, rfl, ?_, rfl⟩
  simp only [bringup_trace, vdma_writes_append, vdma_writes_mapped, vdma_writes_clock,
    vdma_writes_vtc, vdma_writes_vdma, List.nil_append]
  rfl

/-- C14, amended, on a platform where every step succeeds, for 640 x 480. -/
theorem C14_vdma_write_order_witness :
    ∃ d, (pynqz1_fb_probe sample_header (env_ok 640 480)).fbdev = some d ∧
      vdma_writes (pynqz1_fb_probe sample_header (env_ok 640 480)).trace =
        [(sample_header.VDMA_REG_CR + sample_header.VDMA_REG_RX, sample_header.VDMA_CR_RESET_MASK),
         (sample_header.VDMA_REG_CR + sample_header.VDMA_REG_TX, sample_header.VDMA_CR_RESET_MASK),
         (sample_header.VDMA_REG_CR + sample_header.VDMA_REG_TX, 0),
         (sample_header.VDMA_REG_MM2S_ADDR + sample_header.VDMA_REG_HSIZE,
           u32 (d.width * BYTES_PER_PIXEL)),
         (sample_header.VDMA_REG_MM2S_ADDR + sample_header.VDMA_REG_STRD_FRMDLY,
           d.stride ||| shl32 0 sample_header.VDMA_FRMDLY_SHIFT),
         (sample_header.VDMA_REG_MM2S_ADDR + sample_header.VDMA_REG_START_ADDR +
             0 * sample_header.VDMA_START_ADDR_LEN,
           (d.frame.getD 0 ⟨0, none⟩).phys),
         (sample_header.VDMA_REG_CR + sample_header.VDMA_REG_TX,
           u32 (env_ok 640 480).vdma_tx_cr_first ||| sample_header.VDMA_CR_RUNSTOP_MASK),
         (sample_header.VDMA_REG_MM2S_ADDR + sample_header.VDMA_REG_VSIZE, d.height),
         (sample_header.VDMA_REG_PARKPTR,
           u32 (env_ok 640 480).vdma_parkptr &&& not32 sample_header.VDMA_PARKPTR_READREF_MASK),
         (sample_header.VDMA_REG_CR + sample_header.VDMA_REG_TX,
           u32 (env_ok 640 480).vdma_tx_cr_second &&&
             not32 sample_header.VDMA_CR_TAIL_EN_MASK)] ∧
      d.frame.length = FB_NUMBER_OF_FRAMES :=
  C14_vdma_write_order sample_header (env_ok 640 480) 0xe0000000 0xe0010000 0xe0020000
    ⟨rfl, rfl, rfl⟩ ⟨rfl, rfl, rfl⟩ rfl

end Pynqz1fb
